import Mathlib

/-!
Verification development for the deployment/reconciliation tool
`scripts/install_motion_frontend.sh` of the Mme repository.

The bash script is shallowly embedded: each relevant shell function is
translated into an executable Lean definition over explicit state records,
operator-answer records, and HTTP response values.  Line numbers in doc
comments refer to `src/scripts/install_motion_frontend.sh`.
-/

namespace Mme

/- ===================================================================
§1  Field scraping.

The script extracts JSON fields from HTTP bodies with grep/sed, e.g.
(line 356):
  grep -o .."token_code"[[:space:]]*:[[:space:]]*"[^"]*".. | sed ...
(line 380):
  grep -o .."token_count"[[:space:]]*:[[:space:]]*[0-9]*.. | grep -o ..[0-9]*$..
(line 200, branch listing):
  grep -o .."name": *"[^"]*".. | sed ...
We model these as scanners over the character list of the body.  The
model returns the first occurrence of the pattern (for the numeric
pattern: the first occurrence followed by at least one digit, since the
second grep drops digit-less matches); the script would concatenate
multiple matches with newlines, which only coincides with this model for
bodies containing the field at most once (the case for the activation
authority API).
=================================================================== -/

/-- Characters of the POSIX `[[:space:]]` class used in the grep patterns. -/
def posixSpace (c : Char) : Bool :=
  c = ' ' || c = '\t' || c = '\n' || c = '\r' || c = '\x0b' || c = '\x0c'

/-- Drop leading `[[:space:]]*`. -/
def dropPosixSpaces : List Char → List Char
  | [] => []
  | c :: cs => if posixSpace c then dropPosixSpaces cs else c :: cs

/-- Drop leading literal spaces (the ` *` in the branch-name pattern). -/
def dropSpaces : List Char → List Char
  | [] => []
  | c :: cs => if c = ' ' then dropSpaces cs else c :: cs

/-- If `pat` is a literal prefix of `cs`, return the remainder. -/
def dropLiteral : List Char → List Char → Option (List Char)
  | [], cs => some cs
  | _ :: _, [] => none
  | p :: ps, c :: cs => if p = c then dropLiteral ps cs else none

/-- Take characters up to the next double quote; `none` if unterminated. -/
def takeUntilQuote : List Char → Option (List Char × List Char)
  | [] => none
  | c :: cs =>
    if c = '"' then some ([], cs)
    else match takeUntilQuote cs with
      | some (v, rest) => some (c :: v, rest)
      | none => none

/-- Match `"[^"]*"` at the head of the input, returning the quoted value
and the remainder after the closing quote. -/
def quotedValue : List Char → Option (String × List Char)
  | [] => none
  | c :: cs =>
    if c = '"' then (takeUntilQuote cs).map (fun p => (String.mk p.1, p.2))
    else none

/-- Split off a maximal run of leading ASCII digits. -/
def takeDigits : List Char → List Char × List Char
  | [] => ([], [])
  | c :: cs =>
    if c.isDigit then
      let p := takeDigits cs
      (c :: p.1, p.2)
    else ([], c :: cs)

/-- Decimal value of a digit run. -/
def digitsToNat (ds : List Char) : Nat :=
  ds.foldl (fun n c => 10 * n + (c.toNat - '0'.toNat)) 0

/-- Try to match `"key"[[:space:]]*:[[:space:]]*"value"` at the head. -/
def matchStringField (key : List Char) (cs : List Char) : Option String :=
  match dropLiteral ('"' :: key ++ ['"']) cs with
  | none => none
  | some rest =>
    match dropPosixSpaces rest with
    | ':' :: rest2 => (quotedValue (dropPosixSpaces rest2)).map (fun p => p.1)
    | _ => none

/-- Scan for the first occurrence of a quoted string field. -/
def scanStringField (key : List Char) : Nat → List Char → Option String
  | 0, _ => none
  | _, [] => none
  | fuel + 1, c :: cs =>
    match matchStringField key (c :: cs) with
    | some v => some v
    | none => scanStringField key fuel cs

/-- First `"key" : "value"` occurrence in `body`, as the script's
grep/sed pipeline produces it (empty result modelled as `none`). -/
def extractStringField (key body : String) : Option String :=
  scanStringField key.data (body.length + 1) body.data

/-- Try to match `"key"[[:space:]]*:[[:space:]]*[0-9]+` at the head.
A match with zero digits is dropped by the second grep, so it yields
`none` here and scanning continues. -/
def matchNatField (key : List Char) (cs : List Char) : Option Nat :=
  match dropLiteral ('"' :: key ++ ['"']) cs with
  | none => none
  | some rest =>
    match dropPosixSpaces rest with
    | ':' :: rest2 =>
      let p := takeDigits (dropPosixSpaces rest2)
      if p.1 = [] then none else some (digitsToNat p.1)
    | _ => none

/-- Scan for the first digit-bearing occurrence of a numeric field. -/
def scanNatField (key : List Char) : Nat → List Char → Option Nat
  | 0, _ => none
  | _, [] => none
  | fuel + 1, c :: cs =>
    match matchNatField key (c :: cs) with
    | some v => some v
    | none => scanNatField key fuel cs

/-- First `"key" : <digits>` occurrence in `body`; absent or digit-less
occurrences give `none`, matching the `[[ -z "$token_count" ]]` branch. -/
def extractNatField (key body : String) : Option Nat :=
  scanNatField key.data (body.length + 1) body.data

/- ===================================================================
§2  Fixed configuration constants (script lines 32-59).
=================================================================== -/

def GITHUB_API_URL : String := "https://api.github.com/repos/sn8k/Mme"

def INSTALL_DIR : String := "/opt/motion-frontend"

def DEFAULT_BRANCH : String := "main"

def MEETING_SERVER_URL : String := "https://meeting.ygsoft.fr"

/- ===================================================================
§3  Device Activation Client: `validate_meeting_credentials`
(lines 324-434).

The two HTTP exchanges are modelled as response values handed to the
function; the returned list records which network calls were actually
issued, in order.
=================================================================== -/

/-- An HTTP exchange as the script observes it: the `%{http_code}` tail
line and the body.  A transport failure leaves `http_code` empty, which
compares unequal to 200; we model that as `code = 0`. -/
structure HttpResponse where
  code : Nat
  body : String
deriving DecidableEq, Repr

/-- The network calls `validate_meeting_credentials` can issue. -/
inductive NetCall
  | lookupGet
  | flashPost
deriving DecidableEq, Repr

/-- Terminal outcomes of the four-step activation protocol. -/
inductive ValidationOutcome
  | deviceNotFound
  | invalidToken
  | noTokens
  | flashFailed
  | ok (tokensLeft : Option Nat)
deriving DecidableEq, Repr

/-- The administrative top-up endpoint printed in the no-tokens error
(lines 394-395). -/
def adminTokensEndpoint (deviceKey : String) : String :=
  "PUT " ++ MEETING_SERVER_URL ++ "/api/devices/" ++ deviceKey ++ "/tokens"

/-- The guidance text of the no-tokens terminal error (lines 383-396),
accents and apostrophes elided. -/
def noTokensMessage (deviceKey : String) : String :=
  "ERREUR: Aucun token disponible. " ++
  "Ce device na plus de tokens dinstallation disponibles. " ++
  "Chaque installation de Motion Frontend consomme un token. " ++
  "Endpoint dadministration: " ++ adminTokensEndpoint deviceKey

/-- `validate_meeting_credentials` (lines 324-434): lookup GET, token
comparison, balance check, flash-request POST.  Returns the terminal
outcome and the network calls issued, in order. -/
def validate_meeting_credentials (lookup : HttpResponse) (opToken : String)
    (flash : HttpResponse) : ValidationOutcome × List NetCall :=
  if lookup.code ≠ 200 then
    (.deviceNotFound, [.lookupGet])
  else
    let storedToken := (extractStringField "token_code" lookup.body).getD ""
    if storedToken ≠ opToken then
      (.invalidToken, [.lookupGet])
    else
      match extractNatField "token_count" lookup.body with
      | none => (.noTokens, [.lookupGet])
      | some n =>
        if n ≤ 0 then
          (.noTokens, [.lookupGet])
        else if flash.code ≠ 200 then
          (.flashFailed, [.lookupGet, .flashPost])
        else
          (.ok (extractNatField "tokens_left" flash.body), [.lookupGet, .flashPost])

/- ===================================================================
§4  The persisted meeting section and the install action
(lines 793-913, 1649-1713).
=================================================================== -/

/-- The `meeting` section of `config/motion_frontend.json`. -/
structure MeetingConfig where
  serverUrl : String
  deviceKey : String
  tokenCode : String
deriving DecidableEq, Repr

/-- `update_meeting_config` (lines 867-913): each field of the meeting
section is overwritten only when the corresponding script variable is
nonempty. -/
def update_meeting_config (c : MeetingConfig)
    (serverUrl deviceKey tokenCode : String) : MeetingConfig :=
  { serverUrl := if serverUrl ≠ "" then serverUrl else c.serverUrl
    deviceKey := if deviceKey ≠ "" then deviceKey else c.deviceKey
    tokenCode := if tokenCode ≠ "" then tokenCode else c.tokenCode }

/-- Command-line inputs of an install run (argument parsing,
lines 1775-1815). -/
structure InstallArgs where
  skipMeeting : Bool
  deviceKey : String
  tokenCode : String
deriving DecidableEq, Repr

/-- Operator answers consumed by an install run. -/
structure InstallPrompts where
  /-- Outcome of the interactive `configure_meeting_service` prompts
  (lines 259-321): `none` when the operator declines or cancels the
  meeting configuration (leaving both variables empty), `some (k, t)`
  when both values are entered (the read loops only exit with nonempty
  values). -/
  meetingInteractive : Option (String × String)
  /-- Answer to "Continuer l installation?" (line 1700). -/
  confirmInstall : Bool
  /-- `true` when a later phase aborts before `setup_configuration`
  runs, e.g. `create_directories` declined at lines 686-694. -/
  preWriteAbort : Bool
deriving DecidableEq, Repr

/-- Observable result of an install run: whether it aborted, the
activation calls issued, and the meeting section written by
`setup_configuration`, if reached. -/
structure InstallResult where
  aborted : Bool
  calls : List NetCall
  write : Option MeetingConfig
deriving DecidableEq, Repr

/-- The meeting phase of `install` (lines 1665-1685): skip entirely,
validate command-line credentials, or run the interactive flow.
Returns the calls issued and `some (key, token)` to proceed with, or
`none` when validation failed (`exit 1` at lines 316 and 1676). -/
def installMeetingPhase (args : InstallArgs) (p : InstallPrompts)
    (lookup flash : HttpResponse) : List NetCall × Option (String × String) :=
  if args.skipMeeting = true then
    ([], some (args.deviceKey, args.tokenCode))
  else if args.deviceKey ≠ "" ∧ args.tokenCode ≠ "" then
    let r := validate_meeting_credentials lookup args.tokenCode flash
    (r.2, match r.1 with
          | .ok _ => some (args.deviceKey, args.tokenCode)
          | _ => none)
  else
    match p.meetingInteractive with
    | none => ([], some ("", ""))
    | some (k, t) =>
      let r := validate_meeting_credentials lookup t flash
      (r.2, match r.1 with
            | .ok _ => some (k, t)
            | _ => none)

/-- The install action (lines 1649-1713), restricted to the phases that
issue activation calls or write the meeting section.  The intermediate
provisioning phases are summarized by `preWriteAbort`; when the run
reaches `setup_configuration` (lines 793-861) the meeting section is
written with the fixed server URL and the current credential variables
(the default-config heredoc at lines 831-836; the existing-file branch
differs only by keeping earlier nonempty values). -/
def installRun (args : InstallArgs) (p : InstallPrompts)
    (lookup flash : HttpResponse) : InstallResult :=
  let mp := installMeetingPhase args p lookup flash
  match mp.2 with
  | none => { aborted := true, calls := mp.1, write := none }
  | some (k, t) =>
    if p.confirmInstall = false then
      { aborted := true, calls := mp.1, write := none }
    else if p.preWriteAbort = true then
      { aborted := true, calls := mp.1, write := none }
    else
      { aborted := false
        calls := mp.1
        write := some ⟨MEETING_SERVER_URL, k, t⟩ }

/- ===================================================================
§5  Host state and the repair action (lines 1254-1576).

The host is modelled by one boolean per fact the repair battery tests,
plus the persisted meeting section.  Each auto-fix helper mirrors the
state effect of the corresponding shell function.
=================================================================== -/

/-- Host state as observed and mutated by the script. -/
structure Host where
  installDir : Bool
  backendDir : Bool
  staticDir : Bool
  templatesDir : Bool
  configDir : Bool
  logsDir : Bool
  userExists : Bool
  /-- Whether the host group (video, audio, gpio, i2c, spi) exists. -/
  hostVideo : Bool
  hostAudio : Bool
  hostGpio : Bool
  hostI2c : Bool
  hostSpi : Bool
  /-- Whether the service user is a member of the group. -/
  memVideo : Bool
  memAudio : Bool
  memGpio : Bool
  memI2c : Bool
  memSpi : Bool
  venvDir : Bool
  venvPython : Bool
  requirementsFile : Bool
  pipCheckOk : Bool
  serviceFile : Bool
  svcKillMode : Bool
  svcTimeoutStop : Bool
  svcEnabled : Bool
  ownerOk : Bool
  mediamtxInstalled : Bool
  mediamtxActive : Bool
  configFile : Bool
  meeting : MeetingConfig
  logsWritable : Bool
  logsOwnerOk : Bool
  serviceActive : Bool
deriving DecidableEq, Repr

/-- Environment of a repair run: command-line credential variables
(empty on a plain `--repair` invocation), whether each attempted
external fix succeeds, and the operator answers. -/
structure Env where
  cliDeviceKey : String
  cliTokenCode : String
  /-- `install_mediamtx` (lines 476-641) succeeds. -/
  mediamtxInstallOk : Bool
  /-- `systemctl start mediamtx` (line 1478) leaves the unit active. -/
  mediamtxStartOk : Bool
  /-- Reinstalling the Python requirements leaves `pip check` passing. -/
  pipFixOk : Bool
  /-- Answer to "Voulez-vous reinstaller Motion Frontend?" (line 1526). -/
  confirmReinstall : Bool
  /-- Answer to "Voulez-vous demarrer le service?" (line 1570). -/
  confirmStart : Bool
  /-- Repair-time meeting prompts (lines 1595-1604): `none` when the
  operator declines or enters nothing. -/
  meetingRepair : Option (String × String)
  /-- Response of the repair-time device lookup GET (line 1610). -/
  repairLookup : HttpResponse
deriving DecidableEq, Repr

/-- `create_user_and_groups` (lines 645-682): create the account if
absent and add it to each hardware-access group that exists on the
host. -/
def create_user_and_groups (h : Host) : Host :=
  { h with
    userExists := true
    memVideo := h.hostVideo || h.memVideo
    memAudio := h.hostAudio || h.memAudio
    memGpio := h.hostGpio || h.memGpio
    memI2c := h.hostI2c || h.memI2c
    memSpi := h.hostSpi || h.memSpi }

/-- `setup_python_environment` (lines 744-791): recreate the venv and
install the requirements; whether `pip check` passes afterwards depends
on the environment. -/
def setup_python_environment (e : Env) (h : Host) : Host :=
  { h with
    venvDir := true
    venvPython := true
    pipCheckOk := if h.requirementsFile = true then e.pipFixOk else h.pipCheckOk }

/-- `create_systemd_service` (lines 933-993): write the unit file from
the current template (which contains `KillMode=mixed` and
`TimeoutStopSec=15`), daemon-reload, and enable the unit. -/
def create_systemd_service (h : Host) : Host :=
  { h with
    serviceFile := true
    svcKillMode := true
    svcTimeoutStop := true
    svcEnabled := true }

/-- `set_permissions` (lines 916-931): normalize ownership and modes
over the whole installation root, including the logs directory. -/
def set_permissions (h : Host) : Host :=
  { h with ownerOk := true, logsWritable := true, logsOwnerOk := true }

/-- `install_mediamtx` (lines 476-641): already installed counts as
success; a fresh install succeeds when the environment allows, enabling
and starting the unit. -/
def install_mediamtx (e : Env) (h : Host) : Bool × Host :=
  if h.mediamtxInstalled = true then (true, h)
  else if e.mediamtxInstallOk = true then
    (true, { h with mediamtxInstalled := true, mediamtxActive := true })
  else (false, h)

/-- `setup_configuration` (lines 793-861): ensure the config directory,
then write the meeting section — through `update_meeting_config` when
the file already exists, otherwise through the default heredoc. -/
def setup_configuration (e : Env) (h : Host) : Host :=
  if h.configFile = true then
    { h with
      configDir := true
      meeting := update_meeting_config h.meeting MEETING_SERVER_URL
        e.cliDeviceKey e.cliTokenCode }
  else
    { h with
      configDir := true
      configFile := true
      meeting := ⟨MEETING_SERVER_URL, e.cliDeviceKey, e.cliTokenCode⟩ }

/-- `check_meeting_config_repair` (lines 1579-1643): when the config
file exists but holds no device key, offer to configure; a device
lookup GET is issued once key and token are entered, and
`update_meeting_config` runs only when the lookup returned 200 and the
stored token code matches — no flash-request is ever issued.  Returns
the new host, the pair written (if any), and the calls issued. -/
def check_meeting_config_repair (e : Env) (h : Host) :
    Host × Option (String × String) × List NetCall :=
  match e.meetingRepair with
  | none => (h, none, [])
  | some (k, t) =>
    if h.configFile = true ∧ h.meeting.deviceKey = "" ∧ k ≠ "" ∧ t ≠ "" then
      if e.repairLookup.code = 200 ∧
          (extractStringField "token_code" e.repairLookup.body).getD "" = t then
        ({ h with meeting := update_meeting_config h.meeting MEETING_SERVER_URL k t },
         some (k, t), [.lookupGet])
      else (h, none, [.lookupGet])
    else (h, none, [])

/-- Accumulator threaded through the repair checks: host state, the
`issues_found` / `issues_fixed` counters, the `needs_reinstall` flag,
and the activation calls and credential writes of the run. -/
structure RepairS where
  host : Host
  found : Nat
  fixed : Nat
  reinstall : Bool
  calls : List NetCall
  writes : List (String × String)
deriving DecidableEq, Repr

/-- One escalating subdirectory step of check 1 (lines 1281-1297): a
missing code subdirectory counts an issue and flags reinstall. -/
def subdirEscalate (proj : Host → Bool) (s : RepairS) : RepairS :=
  if proj s.host = false then
    { s with found := s.found + 1, reinstall := true }
  else s

/-- The `config` step of check 1: a missing config subdirectory is
created in place. -/
def mkdirConfigStep (s : RepairS) : RepairS :=
  if s.host.configDir = false then
    { s with
        found := s.found + 1
        fixed := s.fixed + 1
        host := { s.host with configDir := true } }
  else s

/-- The `logs` step of check 1: a missing logs directory is created in
place (as root, so the fresh directory is not owned by the service
user). -/
def mkdirLogsStep (s : RepairS) : RepairS :=
  if s.host.logsDir = false then
    { s with
        found := s.found + 1
        fixed := s.fixed + 1
        host := { s.host with
                    logsDir := true
                    logsWritable := true
                    logsOwnerOk := false } }
  else s

/-- Check 1 (lines 1271-1298): installation root and required
subdirectories, in the loop order backend, static, templates, config,
logs. -/
def repairCheck1 (s : RepairS) : RepairS :=
  if s.host.installDir = false then
    { s with found := s.found + 1, reinstall := true }
  else
    mkdirLogsStep (mkdirConfigStep (subdirEscalate Host.templatesDir
      (subdirEscalate Host.staticDir (subdirEscalate Host.backendDir s))))

/-- One missing-membership step of check 2 (lines 1316-1328): when the
host group exists and the service user is not a member, the user is
added. -/
def memFix (hostG memG : Host → Bool) (setMem : Host → Host)
    (s : RepairS) : RepairS :=
  if hostG s.host = true ∧ memG s.host = false then
    { s with
        found := s.found + 1
        fixed := s.fixed + 1
        host := setMem s.host }
  else s

/-- Check 2 (lines 1301-1329): service user and hardware-group
memberships, in the loop order video, audio, gpio, i2c, spi. -/
def repairCheck2 (s : RepairS) : RepairS :=
  if s.host.userExists = false then
    { s with
        found := s.found + 1
        fixed := s.fixed + 1
        host := create_user_and_groups s.host }
  else
    memFix Host.hostSpi Host.memSpi (fun h => { h with memSpi := true })
      (memFix Host.hostI2c Host.memI2c (fun h => { h with memI2c := true })
        (memFix Host.hostGpio Host.memGpio (fun h => { h with memGpio := true })
          (memFix Host.hostAudio Host.memAudio (fun h => { h with memAudio := true })
            (memFix Host.hostVideo Host.memVideo
              (fun h => { h with memVideo := true }) s))))

/-- Check 3 (lines 1332-1372): Python virtual environment and
dependency health. -/
def repairCheck3 (e : Env) (s : RepairS) : RepairS :=
  if s.host.venvDir = false then
    if s.host.backendDir = true then
      { s with
          found := s.found + 1
          fixed := s.fixed + 1
          host := setup_python_environment e s.host }
    else { s with found := s.found + 1, reinstall := true }
  else if s.host.venvPython = false then
    { s with
        found := s.found + 1
        fixed := s.fixed + 1
        host := setup_python_environment e s.host }
  else if s.host.requirementsFile = true ∧ s.host.pipCheckOk = false then
    { s with
        found := s.found + 1
        fixed := s.fixed + 1
        host := { s.host with pipCheckOk := e.pipFixOk } }
  else s

/-- The obsolete-unit step of check 4 (lines 1396-1411): a unit file
missing the shutdown options is regenerated after stopping the
service. -/
def svcObsoleteFix (s : RepairS) : RepairS :=
  if s.host.svcKillMode = false ∨ s.host.svcTimeoutStop = false then
    { s with
        found := s.found + 1
        fixed := s.fixed + 1
        host := create_systemd_service { s.host with serviceActive := false } }
  else s

/-- The enable step of check 4 (lines 1414-1422). -/
def svcEnableFix (s : RepairS) : RepairS :=
  if s.host.svcEnabled = false then
    { s with
        found := s.found + 1
        fixed := s.fixed + 1
        host := { s.host with svcEnabled := true } }
  else s

/-- Check 4 (lines 1375-1423): systemd unit presence, structural
currency (shutdown options), and enabled-at-boot state. -/
def repairCheck4 (s : RepairS) : RepairS :=
  if s.host.serviceFile = false then
    if s.host.backendDir = true then
      { s with
          found := s.found + 1
          fixed := s.fixed + 1
          host := create_systemd_service s.host }
    else { s with found := s.found + 1, reinstall := true }
  else
    svcEnableFix (svcObsoleteFix s)

/-- Check 5 (lines 1426-1444): ownership of the installation root. -/
def repairCheck5 (s : RepairS) : RepairS :=
  if s.host.installDir = true then
    if s.host.ownerOk = false then
      { s with
          found := s.found + 1
          fixed := s.fixed + 1
          host := set_permissions s.host }
    else s
  else s

/-- Check 6 (lines 1447-1485): MediaMTX presence and running state.
An install attempt that fails counts the issue as found but not
fixed; a start attempt counts as fixed even when it fails. -/
def repairCheck6 (e : Env) (s : RepairS) : RepairS :=
  if s.host.mediamtxInstalled = false then
    let r := install_mediamtx e s.host
    { s with
        found := s.found + 1
        fixed := if r.1 = true ∧ r.2.mediamtxInstalled = true then s.fixed + 1 else s.fixed
        host := r.2 }
  else if s.host.mediamtxActive = false then
    { s with
        found := s.found + 1
        fixed := s.fixed + 1
        host := { s.host with mediamtxActive := e.mediamtxStartOk } }
  else s

/-- Check 7 (lines 1488-1507): configuration file presence; when
present, the non-consuming meeting check runs (it counts no issues). -/
def repairCheck7 (e : Env) (s : RepairS) : RepairS :=
  if s.host.configFile = false then
    { s with
        found := s.found + 1
        fixed := s.fixed + 1
        host := set_permissions (setup_configuration e s.host)
        writes := s.writes ++ [(e.cliDeviceKey, e.cliTokenCode)] }
  else
    let r := check_meeting_config_repair e s.host
    { s with
        host := r.1
        calls := s.calls ++ r.2.2
        writes := s.writes ++ r.2.1.toList }

/-- Check 8 (lines 1510-1525): logs directory writability and
ownership. -/
def repairCheck8 (s : RepairS) : RepairS :=
  if s.host.logsDir = true then
    if s.host.logsWritable = false ∨ s.host.logsOwnerOk = false then
      { s with
          found := s.found + 1
          fixed := s.fixed + 1
          host := { s.host with logsWritable := true, logsOwnerOk := true } }
    else s
  else s

/-- The full ordered check battery. -/
def runChecks (e : Env) (h : Host) : RepairS :=
  repairCheck8 (repairCheck7 e (repairCheck6 e (repairCheck5 (repairCheck4
    (repairCheck3 e (repairCheck2 (repairCheck1 ⟨h, 0, 0, false, [], []⟩)))))))

/-- Summary-phase actions of a repair run. -/
inductive REvent
  | backupConfig
  | removeRoot
  | fullInstall
  | restoreConfig
  | permsAfterRestore
  | restartService
  | startService
deriving DecidableEq, Repr

/-- Result of a repair run. -/
structure RepairResult where
  found : Nat
  fixed : Nat
  reinstall : Bool
  host : Host
  calls : List NetCall
  writes : List (String × String)
  trace : List REvent
  aborted : Bool
deriving Repr

/-- State effect of a full `install` run (lines 1704-1713) as invoked
by the reinstall path: all directories, the account, the venv, the
configuration and the unit are (re)created; MediaMTX installation is
attempted; the meeting section is written from the script variables
(empty on a plain `--repair` invocation since `SKIP_MEETING_CONFIG` is
forced, line 1540). -/
def installFromScratch (e : Env) (h : Host) : Host :=
  { h with
    installDir := true, backendDir := true, staticDir := true
    templatesDir := true, configDir := true, logsDir := true
    userExists := true
    memVideo := h.hostVideo || h.memVideo
    memAudio := h.hostAudio || h.memAudio
    memGpio := h.hostGpio || h.memGpio
    memI2c := h.hostI2c || h.memI2c
    memSpi := h.hostSpi || h.memSpi
    venvDir := true, venvPython := true, requirementsFile := true
    pipCheckOk := e.pipFixOk
    serviceFile := true, svcKillMode := true, svcTimeoutStop := true
    svcEnabled := true
    ownerOk := true
    mediamtxInstalled := h.mediamtxInstalled || e.mediamtxInstallOk
    mediamtxActive := h.mediamtxActive || e.mediamtxInstallOk
    configFile := true
    meeting := ⟨MEETING_SERVER_URL, e.cliDeviceKey, e.cliTokenCode⟩
    logsWritable := true, logsOwnerOk := true
    serviceActive := true }

/-- The repair action (lines 1254-1576): the check battery followed by
the summary phase.  On escalation with operator consent the
configuration subtree is snapshotted, the root removed, a full install
performed with the meeting flow skipped, and the snapshot restored. -/
def repair (e : Env) (h : Host) : RepairResult :=
  let s := runChecks e h
  if s.reinstall = true then
    if e.confirmReinstall = true then
      let hasConfig := s.host.configDir
      let installed := installFromScratch e s.host
      let final :=
        if hasConfig = true then
          set_permissions { installed with meeting := s.host.meeting }
        else installed
      { found := s.found, fixed := s.fixed, reinstall := true, host := final
        calls := s.calls
        writes := s.writes ++ [(e.cliDeviceKey, e.cliTokenCode)]
        trace := (if hasConfig = true then [REvent.backupConfig] else [])
          ++ [REvent.removeRoot, REvent.fullInstall]
          ++ (if hasConfig = true then [REvent.restoreConfig, REvent.permsAfterRestore]
              else [])
        aborted := false }
    else
      { found := s.found, fixed := s.fixed, reinstall := true, host := s.host
        calls := s.calls, writes := s.writes, trace := [], aborted := true }
  else if s.found = 0 then
    { found := 0, fixed := s.fixed, reinstall := false, host := s.host
      calls := s.calls, writes := s.writes, trace := [], aborted := false }
  else if 0 < s.fixed then
    if s.host.serviceActive = true then
      { found := s.found, fixed := s.fixed, reinstall := false, host := s.host
        calls := s.calls, writes := s.writes, trace := [REvent.restartService]
        aborted := false }
    else if e.confirmStart = true then
      { found := s.found, fixed := s.fixed, reinstall := false
        host := { s.host with serviceActive := true }
        calls := s.calls, writes := s.writes, trace := [REvent.startService]
        aborted := false }
    else
      { found := s.found, fixed := s.fixed, reinstall := false, host := s.host
        calls := s.calls, writes := s.writes, trace := [], aborted := false }
  else
    { found := s.found, fixed := s.fixed, reinstall := false, host := s.host
      calls := s.calls, writes := s.writes, trace := [], aborted := false }

/- ===================================================================
§6  Branch selection (lines 188-253) under `set -e` (line 27).

`fetch_branches` is called as `branches=$(fetch_branches)`.  When curl
fails or returns nothing, `branches_json` is empty and the function
executes `return 1`; the nonzero assignment then terminates the whole
script through `set -e` before the fallback in `select_branch` can
run.  Only a nonempty body without extractable names reaches the
fallback (the name-extraction pipeline ends in `sed`, so a failing
`grep` in the middle does not make it nonzero).
=================================================================== -/

/-- Try to match the branch-name pattern `"name": *"[^"]*"` (line 200)
at the head of the input. -/
def matchNameField (cs : List Char) : Option (String × List Char) :=
  match dropLiteral ('"' :: 'n' :: 'a' :: 'm' :: 'e' :: '"' :: ':' :: []) cs with
  | none => none
  | some rest => quotedValue (dropSpaces rest)

/-- All non-overlapping branch-name matches, in order. -/
def scanNames : Nat → List Char → List String
  | 0, _ => []
  | _, [] => []
  | fuel + 1, c :: cs =>
    match matchNameField (c :: cs) with
    | some (v, rest) => v :: scanNames fuel rest
    | none => scanNames fuel cs

/-- The output of the extraction pipeline of `fetch_branches`
(line 200). -/
def extractBranchNames (body : String) : List String :=
  scanNames (body.length + 1) body.data

/-- What the caller of `fetch_branches` observes: `fatal` when the
function returns nonzero (and `set -e` kills the script at the
assignment), otherwise the extracted names. -/
inductive FetchBranchesResult
  | fatal
  | names (l : List String)
deriving DecidableEq, Repr

/-- `fetch_branches` (lines 188-201).  `curlBody = none` models a
failed curl (nothing captured). -/
def fetch_branches (curlBody : Option String) : FetchBranchesResult :=
  let captured := curlBody.getD ""
  if captured = "" then .fatal
  else .names (extractBranchNames captured)

/-- Outcome of `select_branch`: either the script died, or a branch was
selected. -/
inductive BranchSelectionResult
  | fatal
  | selected (branch : String)
deriving DecidableEq, Repr

/-- `select_branch` (lines 203-253): empty lines are dropped when the
array is built; an empty list, a bare Enter, a non-numeric or an
out-of-range reply all select the default branch. -/
def select_branch (curlBody : Option String) (choice : String) :
    BranchSelectionResult :=
  match fetch_branches curlBody with
  | .fatal => .fatal
  | .names l =>
    let branches := l.filter (fun b => b ≠ "")
    if branches = [] then .selected DEFAULT_BRANCH
    else if choice = "" then .selected DEFAULT_BRANCH
    else
      match choice.toNat? with
      | some i =>
        if 1 ≤ i ∧ i ≤ branches.length then
          .selected (branches.getD (i - 1) DEFAULT_BRANCH)
        else .selected DEFAULT_BRANCH
      | none => .selected DEFAULT_BRANCH

/- ===================================================================
§7  The update action (main dispatch lines 1822-1828, update
lines 1203-1248).
=================================================================== -/

/-- Phases of an update run, in execution order. -/
inductive UpdatePhase
  | checkRoot
  | stopService
  | backupConfig
  | fetchSource
  | restoreConfig
  | provisionDeps
  | setPerms
  | startService
deriving DecidableEq, Repr

/-- The update action: privilege check (line 1822), then the phase
sequence of `update`; aborts (second component `true`) when the
installation root is missing (lines 1210-1214). -/
def updateAction (installed svcActive configDirPresent : Bool) :
    List UpdatePhase × Bool :=
  if installed = false then ([UpdatePhase.checkRoot], true)
  else
    ([UpdatePhase.checkRoot]
      ++ (if svcActive = true then [UpdatePhase.stopService] else [])
      ++ (if configDirPresent = true then [UpdatePhase.backupConfig] else [])
      ++ [UpdatePhase.fetchSource]
      ++ (if configDirPresent = true then [UpdatePhase.restoreConfig] else [])
      ++ [UpdatePhase.provisionDeps, UpdatePhase.setPerms,
          UpdatePhase.startService],
     false)

/- ===================================================================
§8  The uninstall action (lines 1100-1197).
=================================================================== -/

/-- Host state relevant to teardown. -/
structure TeardownHost where
  installDir : Bool
  /-- `$INSTALL_DIR/config`. -/
  configSubdir : Bool
  logDir : Bool
  /-- `/etc/motion-frontend`. -/
  etcConfigDir : Bool
  serviceFile : Bool
  /-- Backup directories present under `/tmp`. -/
  tmpBackups : List String
deriving DecidableEq, Repr

/-- Operator answers of an uninstall run (the user/group/MediaMTX
questions do not affect the claims modelled here). -/
structure TeardownAnswers where
  confirmUninstall : Bool
  /-- `true` answers yes to "Voulez-vous egalement supprimer les
  fichiers de configuration?", i.e. declines preservation. -/
  deleteConfigFiles : Bool
deriving DecidableEq, Repr

/-- The timestamped backup location (lines 1141, 1222, 1533). -/
def backupPath (ts : String) : String :=
  "/tmp/motion-frontend-config-backup-" ++ ts

/-- `uninstall` (lines 1100-1197): `none` when cancelled at the first
confirmation (no mutation); otherwise the final host state and the
backup made, if any.  The installation root and the log directory are
always removed; `/etc/motion-frontend` only when deletion was chosen;
a backup is made exactly when the config subtree exists and deletion
was declined. -/
def uninstall (h : TeardownHost) (a : TeardownAnswers) (ts : String) :
    Option (TeardownHost × Option String) :=
  if a.confirmUninstall = false then none
  else
    let backup : Option String :=
      if h.configSubdir = true ∧ a.deleteConfigFiles = false then
        some (backupPath ts)
      else none
    some
      ({ installDir := false
         configSubdir := false
         logDir := false
         etcConfigDir :=
           if a.deleteConfigFiles = true ∧ h.etcConfigDir = true then false
           else h.etcConfigDir
         serviceFile := false
         tmpBackups := h.tmpBackups ++ backup.toList },
       backup)

/- ===================================================================
§9  Service unit manager event traces (lines 995-1051).
=================================================================== -/

/-- Externally visible events of `update_systemd_service` and
`start_service`. -/
inductive SvcEvent
  | stopSvc
  | pkillBackend
  | sleepSec (n : Nat)
  | portQuery (port : Nat)
  | killPid (port : Nat)
  | createUnit
  | startCall
  | statusCheck
deriving DecidableEq, Repr

/-- The MJPEG port range freed at lines 1009-1016. -/
def mjpegPorts : List Nat :=
  [8081, 8082, 8083, 8084, 8085, 8086, 8087, 8088, 8089, 8090]

/-- The port-freeing loop: each port is queried in the listening-socket
table (`ss -tlnp`), and the owning pid is killed when one is found.
`held p = true` means a process owns port `p`. -/
def freePortsEvents (held : Nat → Bool) : List SvcEvent :=
  mjpegPorts.flatMap fun p =>
    SvcEvent.portQuery p :: (if held p then [SvcEvent.killPid p] else [])

/-- `update_systemd_service` (lines 995-1035): stop, settle, pkill,
settle, free the MJPEG ports, settle, regenerate the unit, start,
wait, poll status. -/
def update_systemd_service (held : Nat → Bool) : List SvcEvent :=
  [SvcEvent.stopSvc, SvcEvent.sleepSec 2, SvcEvent.pkillBackend,
   SvcEvent.sleepSec 1]
    ++ freePortsEvents held
    ++ [SvcEvent.sleepSec 1, SvcEvent.createUnit, SvcEvent.startCall,
        SvcEvent.sleepSec 3, SvcEvent.statusCheck]

/-- `start_service` (lines 1037-1051): start, wait, poll status —
no port handling. -/
def start_service : List SvcEvent :=
  [SvcEvent.startCall, SvcEvent.sleepSec 2, SvcEvent.statusCheck]

/-- Whether an event is part of port freeing. -/
def portFreeingEvent : SvcEvent → Bool
  | SvcEvent.portQuery _ => true
  | SvcEvent.killPid _ => true
  | _ => false

/- ===================================================================
§10  `create_directories` (lines 684-704).
=================================================================== -/

/-- Observable outcome of `create_directories`. -/
structure CreateDirsResult where
  prompted : Bool
  aborted : Bool
  removedExisting : Bool
  preExistingPreserved : Bool
deriving DecidableEq, Repr

/-- `create_directories` (lines 684-704): when the installation root
already exists the operator is asked; declining aborts (`exit 1`)
leaving the root untouched, accepting removes it before recreating. -/
def create_directories (dirExists confirmRemove : Bool) : CreateDirsResult :=
  if dirExists = true then
    if confirmRemove = true then
      { prompted := true, aborted := false, removedExisting := true
        preExistingPreserved := false }
    else
      { prompted := true, aborted := true, removedExisting := false
        preExistingPreserved := true }
  else
    { prompted := false, aborted := false, removedExisting := false
      preExistingPreserved := false }

/- ===================================================================
§11  Formalized claim statements.
=================================================================== -/

/-- The phase ordering asserted by the spec for update: probe, backup,
fetch, provision, restore, restart. -/
def claimedUpdatePhaseOrder (t : List UpdatePhase) : Prop :=
  t.indexOf UpdatePhase.checkRoot < t.indexOf UpdatePhase.backupConfig ∧
  t.indexOf UpdatePhase.backupConfig < t.indexOf UpdatePhase.fetchSource ∧
  t.indexOf UpdatePhase.fetchSource < t.indexOf UpdatePhase.provisionDeps ∧
  t.indexOf UpdatePhase.provisionDeps < t.indexOf UpdatePhase.restoreConfig ∧
  t.indexOf UpdatePhase.restoreConfig < t.indexOf UpdatePhase.startService

/-- The phase ordering the code actually implements for update: probe,
backup, fetch, restore, provision, restart. -/
def actualUpdatePhaseOrder (t : List UpdatePhase) : Prop :=
  t.indexOf UpdatePhase.checkRoot < t.indexOf UpdatePhase.backupConfig ∧
  t.indexOf UpdatePhase.backupConfig < t.indexOf UpdatePhase.fetchSource ∧
  t.indexOf UpdatePhase.fetchSource < t.indexOf UpdatePhase.restoreConfig ∧
  t.indexOf UpdatePhase.restoreConfig < t.indexOf UpdatePhase.provisionDeps ∧
  t.indexOf UpdatePhase.provisionDeps < t.indexOf UpdatePhase.startService

/-- Port freeing as claimed by C9, for a start-sequence trace: there is
a settle wait such that every MJPEG port was queried before it (its
holder killed when present), no start call precedes it, and a start
call follows it. -/
def portFreeingPrecedesStart (held : Nat → Bool) (t : List SvcEvent) : Prop :=
  ∃ l1 l2, t = l1 ++ SvcEvent.sleepSec 1 :: l2 ∧
    (∀ p ∈ mjpegPorts, SvcEvent.portQuery p ∈ l1) ∧
    (∀ p ∈ mjpegPorts, held p = true → SvcEvent.killPid p ∈ l1) ∧
    SvcEvent.startCall ∉ l1 ∧
    SvcEvent.startCall ∈ l2

/-- A host state on which every repair check passes. -/
structure HealthyHost (h : Host) : Prop where
  installDir : h.installDir = true
  backendDir : h.backendDir = true
  staticDir : h.staticDir = true
  templatesDir : h.templatesDir = true
  configDir : h.configDir = true
  logsDir : h.logsDir = true
  userExists : h.userExists = true
  memVideo : h.hostVideo = true → h.memVideo = true
  memAudio : h.hostAudio = true → h.memAudio = true
  memGpio : h.hostGpio = true → h.memGpio = true
  memI2c : h.hostI2c = true → h.memI2c = true
  memSpi : h.hostSpi = true → h.memSpi = true
  venvDir : h.venvDir = true
  venvPython : h.venvPython = true
  pipCheckOk : h.requirementsFile = true → h.pipCheckOk = true
  serviceFile : h.serviceFile = true
  svcKillMode : h.svcKillMode = true
  svcTimeoutStop : h.svcTimeoutStop = true
  svcEnabled : h.svcEnabled = true
  ownerOk : h.ownerOk = true
  mediamtxInstalled : h.mediamtxInstalled = true
  mediamtxActive : h.mediamtxActive = true
  configFile : h.configFile = true
  logsWritable : h.logsWritable = true
  logsOwnerOk : h.logsOwnerOk = true

/-- A host on which every repair check passes, for concrete
evaluations. -/
def sampleHost : Host :=
  { installDir := true, backendDir := true, staticDir := true
    templatesDir := true, configDir := true, logsDir := true
    userExists := true
    hostVideo := true, hostAudio := true, hostGpio := true
    hostI2c := true, hostSpi := true
    memVideo := true, memAudio := true, memGpio := true
    memI2c := true, memSpi := true
    venvDir := true, venvPython := true, requirementsFile := true
    pipCheckOk := true
    serviceFile := true, svcKillMode := true, svcTimeoutStop := true
    svcEnabled := true
    ownerOk := true
    mediamtxInstalled := true, mediamtxActive := true
    configFile := true
    meeting := ⟨MEETING_SERVER_URL, "F743F2371A834C31B56B3B47708064FF", "TOK"⟩
    logsWritable := true, logsOwnerOk := true
    serviceActive := false }

/-- A repair environment where every attempted fix succeeds and the
operator declines everything optional. -/
def sampleEnv : Env :=
  { cliDeviceKey := "", cliTokenCode := ""
    mediamtxInstallOk := true, mediamtxStartOk := true, pipFixOk := true
    confirmReinstall := true, confirmStart := false
    meetingRepair := none
    repairLookup := ⟨0, ""⟩ }

/- ===================================================================
Theorems.  Shared helper lemmas first, then one theorem per claim
(with witnesses and counterexamples).
=================================================================== -/

/-- The flash-request is issued exactly when the lookup returned 200,
the stored token (empty when absent) matches, and the extracted count
is a positive number. -/
theorem validate_flash_called_iff (lookup : HttpResponse) (opToken : String)
    (flash : HttpResponse) :
    NetCall.flashPost ∈ (validate_meeting_credentials lookup opToken flash).2 ↔
      lookup.code = 200 ∧
      (extractStringField "token_code" lookup.body).getD "" = opToken ∧
      ∃ n, extractNatField "token_count" lookup.body = some n ∧ 0 < n := by
  unfold validate_meeting_credentials
  by_cases h1 : lookup.code = 200
  · by_cases h2 : (extractStringField "token_code" lookup.body).getD "" = opToken
    · cases hn : extractNatField "token_count" lookup.body with
      | none => simp [h1, h2, hn]
      | some n =>
        by_cases h3 : n ≤ 0
        · have h0 : n = 0 := Nat.le_zero.mp h3
          subst h0
          simp [h1, h2, hn]
        · by_cases h4 : flash.code = 200 <;> simp [h1, h2, hn, h3, h4] <;> omega
    · simp [h1, h2]
  · simp [h1]

/-- A successful validation implies the flash call returned 200. -/
theorem validate_ok_flash200 (lookup : HttpResponse) (opToken : String)
    (flash : HttpResponse) (tl : Option Nat)
    (h : (validate_meeting_credentials lookup opToken flash).1 =
      ValidationOutcome.ok tl) : flash.code = 200 := by
  unfold validate_meeting_credentials at h
  by_cases h1 : lookup.code = 200
  · simp only [h1, ne_eq, not_true_eq_false, reduceIte] at h
    by_cases h2 : (extractStringField "token_code" lookup.body).getD "" = opToken
    · simp only [h2, not_true_eq_false, reduceIte] at h
      cases hn : extractNatField "token_count" lookup.body with
      | none => simp [hn] at h
      | some n =>
        rw [hn] at h
        by_cases h3 : n ≤ 0
        · simp [h3] at h
        · by_cases h4 : flash.code = 200
          · exact h4
          · simp [h3, h4] at h
    · simp [h2] at h
  · simp [h1] at h

/-- An empty or absent balance field yields the no-tokens terminal
error with only the lookup call issued. -/
theorem validate_no_tokens (lookup : HttpResponse) (opToken : String)
    (flash : HttpResponse) (h1 : lookup.code = 200)
    (h2 : (extractStringField "token_code" lookup.body).getD "" = opToken)
    (h3 : extractNatField "token_count" lookup.body = none ∨
      extractNatField "token_count" lookup.body = some 0) :
    validate_meeting_credentials lookup opToken flash =
      (ValidationOutcome.noTokens, [NetCall.lookupGet]) := by
  unfold validate_meeting_credentials
  simp only [h1, ne_eq, not_true_eq_false, reduceIte, h2]
  rcases h3 with h3 | h3 <;> simp [h3]

/-- C2: during activation validation, the token-consuming flash-request
POST is issued iff the device-lookup GET returned 200, the extracted
token code equals the operator-supplied one, and the extracted
remaining-activation count is present and strictly positive; an absent
or zero count terminates with the no-tokens error whose guidance names
the administrative top-up endpoint; and a failing flash-request never
leads to credentials being written by the install run. -/
theorem C2_token_consumption_iff (lookup flash : HttpResponse)
    (opToken deviceKey : String) (hop : opToken ≠ "") :
    (NetCall.flashPost ∈ (validate_meeting_credentials lookup opToken flash).2 ↔
      lookup.code = 200 ∧
      extractStringField "token_code" lookup.body = some opToken ∧
      ∃ n, extractNatField "token_count" lookup.body = some n ∧ 0 < n) ∧
    (lookup.code = 200 →
      (extractStringField "token_code" lookup.body).getD "" = opToken →
      (extractNatField "token_count" lookup.body = none ∨
        extractNatField "token_count" lookup.body = some 0) →
      (validate_meeting_credentials lookup opToken flash).1 =
        ValidationOutcome.noTokens ∧
      ∃ pre, noTokensMessage deviceKey = pre ++ adminTokensEndpoint deviceKey) ∧
    (∀ args p, args.skipMeeting = false → flash.code ≠ 200 →
      ∀ cfg, (installRun args p lookup flash).write = some cfg →
        cfg.deviceKey = "") := by
  refine ⟨?_, ?_, ?_⟩
  · rw [validate_flash_called_iff]
    constructor
    · rintro ⟨hc, hs, hn⟩
      refine ⟨hc, ?_, hn⟩
      cases he : extractStringField "token_code" lookup.body with
      | none =>
        rw [he, Option.getD_none] at hs
        exact absurd hs.symm hop
      | some v =>
        rw [he, Option.getD_some] at hs
        rw [hs]
    · rintro ⟨hc, hs, hn⟩
      exact ⟨hc, by simp [hs], hn⟩
  · intro h1 h2 h3
    refine ⟨by rw [validate_no_tokens lookup opToken flash h1 h2 h3], ?_⟩
    exact ⟨"ERREUR: Aucun token disponible. " ++
      "Ce device na plus de tokens dinstallation disponibles. " ++
      "Chaque installation de Motion Frontend consomme un token. " ++
      "Endpoint dadministration: ", rfl⟩
  · intro args p hskip hflash cfg hw
    unfold installRun installMeetingPhase at hw
    rw [hskip] at hw
    simp only [Bool.false_eq_true, if_false] at hw
    by_cases hcli : args.deviceKey ≠ "" ∧ args.tokenCode ≠ ""
    · rw [if_pos hcli] at hw
      cases hv : (validate_meeting_credentials lookup args.tokenCode flash).1 with
      | ok tl => exact absurd (validate_ok_flash200 lookup args.tokenCode flash tl hv) hflash
      | deviceNotFound => rw [hv] at hw; simp at hw
      | invalidToken => rw [hv] at hw; simp at hw
      | noTokens => rw [hv] at hw; simp at hw
      | flashFailed => rw [hv] at hw; simp at hw
    · rw [if_neg hcli] at hw
      cases hint : p.meetingInteractive with
      | none =>
        rw [hint] at hw
        dsimp only at hw
        by_cases hci : p.confirmInstall = false
        · simp [hci] at hw
        · rw [if_neg hci] at hw
          by_cases hpa : p.preWriteAbort = true
          · simp [hpa] at hw
          · rw [if_neg hpa] at hw
            simp only [Option.some.injEq] at hw
            rw [← hw]
      | some kt =>
        obtain ⟨k, t⟩ := kt
        rw [hint] at hw
        dsimp only at hw
        cases hv : (validate_meeting_credentials lookup t flash).1 with
        | ok tl => exact absurd (validate_ok_flash200 lookup t flash tl hv) hflash
        | deviceNotFound => rw [hv] at hw; simp at hw
        | invalidToken => rw [hv] at hw; simp at hw
        | noTokens => rw [hv] at hw; simp at hw
        | flashFailed => rw [hv] at hw; simp at hw

/-- Witness for C2 at concrete inputs. -/
theorem C2_token_consumption_iff_witness :
    ("T" : String) ≠ "" ∧
    NetCall.flashPost ∈
      (validate_meeting_credentials
        ⟨200, "\"token_code\": \"T\", \"token_count\": 2"⟩ "T"
        ⟨200, "\"tokens_left\": 1"⟩).2 :=
  ⟨by decide,
    ((C2_token_consumption_iff
      ⟨200, "\"token_code\": \"T\", \"token_count\": 2"⟩
      ⟨200, "\"tokens_left\": 1"⟩ "T" "D" (by decide)).1).mpr (by decide)⟩

/-- C3: a token-code mismatch terminates validation with the
invalid-token error and the lookup GET is the only network call made,
so no activation token is consumed. -/
theorem C3_token_mismatch_no_consumption (lookup flash : HttpResponse)
    (opToken : String) (h200 : lookup.code = 200)
    (hmm : (extractStringField "token_code" lookup.body).getD "" ≠ opToken) :
    validate_meeting_credentials lookup opToken flash =
      (ValidationOutcome.invalidToken, [NetCall.lookupGet]) := by
  unfold validate_meeting_credentials
  simp [h200, hmm]

/-- Witness for C3 at concrete inputs. -/
theorem C3_token_mismatch_no_consumption_witness :
    (HttpResponse.mk 200 "\"token_code\": \"A\", \"token_count\": 5").code = 200 ∧
    (extractStringField "token_code"
      "\"token_code\": \"A\", \"token_count\": 5").getD "" ≠ "B" ∧
    validate_meeting_credentials
      ⟨200, "\"token_code\": \"A\", \"token_count\": 5"⟩ "B" ⟨200, ""⟩ =
      (ValidationOutcome.invalidToken, [NetCall.lookupGet]) :=
  ⟨rfl, by decide,
    C3_token_mismatch_no_consumption
      ⟨200, "\"token_code\": \"A\", \"token_count\": 5"⟩ ⟨200, ""⟩ "B"
      rfl (by decide)⟩

/-- C5 (code bug): when the branch-listing curl fails outright (or
returns an empty body), `fetch_branches` returns nonzero and `set -e`
kills the script at the `branches=$(fetch_branches)` assignment — the
fallback to the default branch is reached only when the call succeeds
with a nonempty body holding no branch names. -/
theorem C5_branch_listing_failure_fatal :
    select_branch none "" = BranchSelectionResult.fatal ∧
    select_branch (some "") "" = BranchSelectionResult.fatal ∧
    select_branch (some "API rate limit exceeded") "" =
      BranchSelectionResult.selected DEFAULT_BRANCH := by
  refine ⟨rfl, rfl, ?_⟩
  decide

/-- C7 counterexample: on an installed host with a config directory and
an active service, the update phases do not follow the claimed order
(dependency provisioning before configuration restore) — the code
restores the configuration before provisioning dependencies. -/
theorem C7_counterexample :
    ¬ claimedUpdatePhaseOrder (updateAction true true true).1 := by
  unfold claimedUpdatePhaseOrder
  decide

/-- C7 (amended): the update action performs its phases in the order
privilege probe, configuration backup, source fetch, configuration
restore, dependency provisioning, service restart. -/
theorem C7_amended_update_order :
    ∀ svcActive : Bool,
      actualUpdatePhaseOrder (updateAction true svcActive true).1 := by
  intro svcActive
  unfold actualUpdatePhaseOrder
  cases svcActive <;> decide

/-- C8: after an uninstall confirmed by the operator, the installation
root (and its config subtree) is removed; when configuration deletion
was chosen no backup is made, and when preservation was chosen (and the
config subtree existed) a timestamped backup exists under /tmp. -/
theorem C8_uninstall_config_preservation (h : TeardownHost)
    (a : TeardownAnswers) (ts : String) (hc : a.confirmUninstall = true) :
    ∃ r b, uninstall h a ts = some (r, b) ∧
      r.installDir = false ∧ r.configSubdir = false ∧ r.logDir = false ∧
      (a.deleteConfigFiles = true → b = none) ∧
      (a.deleteConfigFiles = false → h.configSubdir = true →
        b = some (backupPath ts) ∧ backupPath ts ∈ r.tmpBackups) := by
  have key : uninstall h a ts =
      some ({ installDir := false
              configSubdir := false
              logDir := false
              etcConfigDir :=
                if a.deleteConfigFiles = true ∧ h.etcConfigDir = true
                then false else h.etcConfigDir
              serviceFile := false
              tmpBackups := h.tmpBackups ++
                (if h.configSubdir = true ∧ a.deleteConfigFiles = false
                 then some (backupPath ts) else none).toList },
            if h.configSubdir = true ∧ a.deleteConfigFiles = false
            then some (backupPath ts) else none) := by
    unfold uninstall
    simp only [hc]
    rfl
  refine ⟨_, _, key, rfl, rfl, rfl, ?_, ?_⟩
  · intro hd
    simp [hd]
  · intro hd hcfg
    simp [hd, hcfg]

/-- Witness for C8 at concrete inputs (preservation accepted). -/
theorem C8_uninstall_config_preservation_witness :
    ∃ r b,
      uninstall ⟨true, true, true, true, true, []⟩ ⟨true, false⟩ "20250101" =
        some (r, b) ∧
      r.installDir = false ∧ r.configSubdir = false ∧ r.logDir = false ∧
      ((false : Bool) = true → b = none) ∧
      ((false : Bool) = false → (true : Bool) = true →
        b = some (backupPath "20250101") ∧
        backupPath "20250101" ∈ r.tmpBackups) :=
  C8_uninstall_config_preservation ⟨true, true, true, true, true, []⟩
    ⟨true, false⟩ "20250101" rfl

/-- C10: when the installation root already exists, install prompts the
operator; declining the removal aborts the run with the pre-existing
root untouched, and an existing root is only ever removed after an
explicit confirmation. -/
theorem C10_existing_root_guard (confirmRemove : Bool) :
    (create_directories true confirmRemove).prompted = true ∧
    (confirmRemove = false →
      (create_directories true confirmRemove).aborted = true ∧
      (create_directories true confirmRemove).removedExisting = false ∧
      (create_directories true confirmRemove).preExistingPreserved = true) ∧
    (∀ d c : Bool, (create_directories d c).removedExisting = true →
      c = true) := by
  revert confirmRemove
  decide

/-- Witness for C10 at a concrete input (operator declines). -/
theorem C10_existing_root_guard_witness :
    (create_directories true false).prompted = true ∧
    ((false : Bool) = false →
      (create_directories true false).aborted = true ∧
      (create_directories true false).removedExisting = false ∧
      (create_directories true false).preExistingPreserved = true) ∧
    (∀ d c : Bool, (create_directories d c).removedExisting = true →
      c = true) :=
  C10_existing_root_guard false

/-- Every MJPEG port is queried in the port-freeing loop. -/
theorem freePorts_mem_query (held : Nat → Bool) (p : Nat)
    (hp : p ∈ mjpegPorts) :
    SvcEvent.portQuery p ∈ freePortsEvents held := by
  unfold freePortsEvents
  exact List.mem_flatMap.mpr ⟨p, hp, List.mem_cons_self _ _⟩

/-- A held port gets its owner killed in the port-freeing loop. -/
theorem freePorts_mem_kill (held : Nat → Bool) (p : Nat)
    (hp : p ∈ mjpegPorts) (hh : held p = true) :
    SvcEvent.killPid p ∈ freePortsEvents held := by
  unfold freePortsEvents
  refine List.mem_flatMap.mpr ⟨p, hp, ?_⟩
  simp [hh]

/-- The port-freeing loop emits only port-freeing events. -/
theorem freePorts_only_freeing (held : Nat → Bool) :
    ∀ e ∈ freePortsEvents held, portFreeingEvent e = true := by
  intro e he
  unfold freePortsEvents at he
  obtain ⟨p, _, hmem⟩ := List.mem_flatMap.mp he
  rcases List.mem_cons.mp hmem with h | h
  · subst h; rfl
  · by_cases hh : held p
    · rw [if_pos hh] at h
      simp only [List.mem_singleton] at h
      subst h; rfl
    · rw [if_neg hh] at h
      simp at h

/-- C9 counterexample: the plain `start_service` path (used by install,
update and repair) issues its start call with no port freeing at all,
refuting the claim for those (re)start paths. -/
theorem C9_counterexample :
    ¬ portFreeingPrecedesStart (fun _ => false) start_service := by
  rintro ⟨l1, l2, heq, -, -, -, -⟩
  have hmem : SvcEvent.sleepSec 1 ∈ start_service := by
    rw [heq]
    exact List.mem_append_right _ (List.mem_cons_self _ _)
  simp [start_service] at hmem

/-- C9 (amended): in the refresh-unit flow (`update_systemd_service`),
each MJPEG port is queried in the listening-socket table — with the
owning process killed when one exists — and the settle wait completes
before the service start call; the plain `start_service` path performs
no port freeing. -/
theorem C9_amended_port_freeing (held : Nat → Bool) :
    portFreeingPrecedesStart held (update_systemd_service held) ∧
    (∀ e ∈ start_service, portFreeingEvent e = false) := by
  constructor
  · refine ⟨[SvcEvent.stopSvc, SvcEvent.sleepSec 2, SvcEvent.pkillBackend,
      SvcEvent.sleepSec 1] ++ freePortsEvents held,
      [SvcEvent.createUnit, SvcEvent.startCall, SvcEvent.sleepSec 3,
       SvcEvent.statusCheck], ?_, ?_, ?_, ?_, ?_⟩
    · unfold update_systemd_service
      simp [List.append_assoc]
    · intro p hp
      exact List.mem_append_right _ (freePorts_mem_query held p hp)
    · intro p hp hh
      exact List.mem_append_right _ (freePorts_mem_kill held p hp hh)
    · intro hmem
      rcases List.mem_append.mp hmem with h | h
      · simp at h
      · have := freePorts_only_freeing held _ h
        simp [portFreeingEvent] at this
    · simp
  · intro e he
    fin_cases he <;> rfl

/-- Witness for C9 (amended) with every port held. -/
theorem C9_amended_port_freeing_witness :
    portFreeingPrecedesStart (fun _ => true)
      (update_systemd_service (fun _ => true)) :=
  (C9_amended_port_freeing (fun _ => true)).1

/-- Checks 1-6 and 8 issue no network calls. -/
theorem subdirEscalate_calls (proj : Host → Bool) (s : RepairS) :
    (subdirEscalate proj s).calls = s.calls := by
  unfold subdirEscalate
  split <;> rfl

theorem mkdirConfigStep_calls (s : RepairS) :
    (mkdirConfigStep s).calls = s.calls := by
  unfold mkdirConfigStep
  split <;> rfl

theorem mkdirLogsStep_calls (s : RepairS) :
    (mkdirLogsStep s).calls = s.calls := by
  unfold mkdirLogsStep
  split <;> rfl

theorem repairCheck1_calls (s : RepairS) : (repairCheck1 s).calls = s.calls := by
  unfold repairCheck1
  split
  · rfl
  · rw [mkdirLogsStep_calls, mkdirConfigStep_calls, subdirEscalate_calls,
      subdirEscalate_calls, subdirEscalate_calls]

theorem memFix_calls (hostG memG : Host → Bool) (setMem : Host → Host)
    (s : RepairS) : (memFix hostG memG setMem s).calls = s.calls := by
  unfold memFix
  split <;> rfl

theorem repairCheck2_calls (s : RepairS) : (repairCheck2 s).calls = s.calls := by
  unfold repairCheck2
  split
  · rfl
  · rw [memFix_calls, memFix_calls, memFix_calls, memFix_calls, memFix_calls]

theorem repairCheck3_calls (e : Env) (s : RepairS) :
    (repairCheck3 e s).calls = s.calls := by
  unfold repairCheck3
  repeat' split
  all_goals rfl

theorem svcObsoleteFix_calls (s : RepairS) :
    (svcObsoleteFix s).calls = s.calls := by
  unfold svcObsoleteFix
  split <;> rfl

theorem svcEnableFix_calls (s : RepairS) :
    (svcEnableFix s).calls = s.calls := by
  unfold svcEnableFix
  split <;> rfl

theorem repairCheck4_calls (s : RepairS) : (repairCheck4 s).calls = s.calls := by
  unfold repairCheck4
  repeat' split
  all_goals first
    | rfl
    | rw [svcEnableFix_calls, svcObsoleteFix_calls]

theorem repairCheck5_calls (s : RepairS) : (repairCheck5 s).calls = s.calls := by
  unfold repairCheck5
  repeat' split
  all_goals rfl

theorem repairCheck6_calls (e : Env) (s : RepairS) :
    (repairCheck6 e s).calls = s.calls := by
  unfold repairCheck6
  repeat' split
  all_goals rfl

theorem repairCheck8_calls (s : RepairS) : (repairCheck8 s).calls = s.calls := by
  unfold repairCheck8
  repeat' split
  all_goals rfl

/-- The non-consuming meeting check never issues the flash POST. -/
theorem repairCheck7_no_flash (e : Env) (s : RepairS)
    (h : NetCall.flashPost ∉ s.calls) :
    NetCall.flashPost ∉ (repairCheck7 e s).calls := by
  unfold repairCheck7 check_meeting_config_repair
  dsimp only
  repeat' split
  all_goals simp [h]

/-- The whole check battery never issues the flash POST. -/
theorem runChecks_no_flash (e : Env) (h : Host) :
    NetCall.flashPost ∉ (runChecks e h).calls := by
  unfold runChecks
  rw [repairCheck8_calls]
  apply repairCheck7_no_flash
  rw [repairCheck6_calls, repairCheck5_calls, repairCheck4_calls,
    repairCheck3_calls, repairCheck2_calls, repairCheck1_calls]
  simp

/-- Checks 1-6 and 8 write no credentials. -/
theorem subdirEscalate_writes (proj : Host → Bool) (s : RepairS) :
    (subdirEscalate proj s).writes = s.writes := by
  unfold subdirEscalate
  split <;> rfl

theorem mkdirConfigStep_writes (s : RepairS) :
    (mkdirConfigStep s).writes = s.writes := by
  unfold mkdirConfigStep
  split <;> rfl

theorem mkdirLogsStep_writes (s : RepairS) :
    (mkdirLogsStep s).writes = s.writes := by
  unfold mkdirLogsStep
  split <;> rfl

theorem repairCheck1_writes (s : RepairS) :
    (repairCheck1 s).writes = s.writes := by
  unfold repairCheck1
  split
  · rfl
  · rw [mkdirLogsStep_writes, mkdirConfigStep_writes, subdirEscalate_writes,
      subdirEscalate_writes, subdirEscalate_writes]

theorem memFix_writes (hostG memG : Host → Bool) (setMem : Host → Host)
    (s : RepairS) : (memFix hostG memG setMem s).writes = s.writes := by
  unfold memFix
  split <;> rfl

theorem repairCheck2_writes (s : RepairS) :
    (repairCheck2 s).writes = s.writes := by
  unfold repairCheck2
  split
  · rfl
  · rw [memFix_writes, memFix_writes, memFix_writes, memFix_writes,
      memFix_writes]

theorem repairCheck3_writes (e : Env) (s : RepairS) :
    (repairCheck3 e s).writes = s.writes := by
  unfold repairCheck3
  repeat' split
  all_goals rfl

theorem svcObsoleteFix_writes (s : RepairS) :
    (svcObsoleteFix s).writes = s.writes := by
  unfold svcObsoleteFix
  split <;> rfl

theorem svcEnableFix_writes (s : RepairS) :
    (svcEnableFix s).writes = s.writes := by
  unfold svcEnableFix
  split <;> rfl

theorem repairCheck4_writes (s : RepairS) :
    (repairCheck4 s).writes = s.writes := by
  unfold repairCheck4
  repeat' split
  all_goals first
    | rfl
    | rw [svcEnableFix_writes, svcObsoleteFix_writes]

theorem repairCheck5_writes (s : RepairS) :
    (repairCheck5 s).writes = s.writes := by
  unfold repairCheck5
  repeat' split
  all_goals rfl

theorem repairCheck6_writes (e : Env) (s : RepairS) :
    (repairCheck6 e s).writes = s.writes := by
  unfold repairCheck6
  repeat' split
  all_goals rfl

theorem repairCheck8_writes (s : RepairS) :
    (repairCheck8 s).writes = s.writes := by
  unfold repairCheck8
  repeat' split
  all_goals rfl

/-- A credential pair written by the non-consuming meeting check was
validated by a lookup that returned 200 with a matching stored token
code. -/
theorem check_meeting_write_origin (e : Env) (h : Host) (k t : String)
    (hw : (check_meeting_config_repair e h).2.1 = some (k, t)) :
    e.repairLookup.code = 200 ∧
    (extractStringField "token_code" e.repairLookup.body).getD "" = t := by
  unfold check_meeting_config_repair at hw
  cases hm : e.meetingRepair with
  | none => rw [hm] at hw; simp at hw
  | some kt0 =>
    obtain ⟨k0, t0⟩ := kt0
    rw [hm] at hw
    dsimp only at hw
    by_cases h1 : h.configFile = true ∧ h.meeting.deviceKey = "" ∧
        k0 ≠ "" ∧ t0 ≠ ""
    · rw [if_pos h1] at hw
      by_cases h2 : e.repairLookup.code = 200 ∧
          (extractStringField "token_code" e.repairLookup.body).getD "" = t0
      · rw [if_pos h2] at hw
        simp only [Option.some.injEq, Prod.mk.injEq] at hw
        exact ⟨h2.1, hw.2 ▸ h2.2⟩
      · rw [if_neg h2] at hw
        simp at hw
    · rw [if_neg h1] at hw
      simp at hw

/-- Any credential pair appended by check 7 is either the command-line
pair (config file recreated from scratch) or a lookup-validated pair. -/
theorem repairCheck7_writes_origin (e : Env) (s : RepairS)
    (kt : String × String) (hmem : kt ∈ (repairCheck7 e s).writes) :
    kt ∈ s.writes ∨ kt = (e.cliDeviceKey, e.cliTokenCode) ∨
    (e.repairLookup.code = 200 ∧
     (extractStringField "token_code" e.repairLookup.body).getD "" = kt.2) := by
  unfold repairCheck7 at hmem
  split at hmem
  · simp only [List.mem_append, List.mem_singleton] at hmem
    rcases hmem with hmem | hmem
    · exact Or.inl hmem
    · exact Or.inr (Or.inl hmem)
  · dsimp only at hmem
    simp only [List.mem_append] at hmem
    rcases hmem with hmem | hmem
    · exact Or.inl hmem
    · obtain ⟨k, t⟩ := kt
      rw [Option.mem_toList, Option.mem_def] at hmem
      exact Or.inr (Or.inr (check_meeting_write_origin e s.host k t hmem))

/-- Any credential pair written during the check battery is either the
command-line pair or a lookup-validated pair. -/
theorem runChecks_writes_origin (e : Env) (h : Host) (kt : String × String)
    (hmem : kt ∈ (runChecks e h).writes) :
    kt = (e.cliDeviceKey, e.cliTokenCode) ∨
    (e.repairLookup.code = 200 ∧
     (extractStringField "token_code" e.repairLookup.body).getD "" = kt.2) := by
  unfold runChecks at hmem
  rw [repairCheck8_writes] at hmem
  have h7 := repairCheck7_writes_origin e _ kt hmem
  rw [repairCheck6_writes, repairCheck5_writes, repairCheck4_writes,
    repairCheck3_writes, repairCheck2_writes, repairCheck1_writes] at h7
  rcases h7 with h7 | h7
  · simp at h7
  · exact h7

/-- The repair action issues the same network calls as its check
battery (the reinstall path skips the meeting flow). -/
theorem repair_calls (e : Env) (h : Host) :
    (repair e h).calls = (runChecks e h).calls := by
  unfold repair
  dsimp only
  repeat' split
  all_goals rfl

/-- Any credential pair written during a repair run is either the
command-line pair (written by a from-scratch configuration or the
reinstall path, both with the meeting flow skipped) or a pair validated
by a lookup GET that returned 200 with a matching token code. -/
theorem repair_writes_origin (e : Env) (h : Host) (kt : String × String)
    (hmem : kt ∈ (repair e h).writes) :
    kt = (e.cliDeviceKey, e.cliTokenCode) ∨
    (e.repairLookup.code = 200 ∧
     (extractStringField "token_code" e.repairLookup.body).getD "" = kt.2) := by
  unfold repair at hmem
  dsimp only at hmem
  repeat' split at hmem
  all_goals first
    | exact runChecks_writes_origin e h kt hmem
    | (simp only [List.mem_append, List.mem_singleton] at hmem
       rcases hmem with hmem | hmem
       · exact runChecks_writes_origin e h kt hmem
       · exact Or.inl hmem)

/-- A successful validation implies both HTTP calls returned 200 and
the stored token matched. -/
theorem validate_ok_facts (lookup : HttpResponse) (opToken : String)
    (flash : HttpResponse) (tl : Option Nat)
    (h : (validate_meeting_credentials lookup opToken flash).1 =
      ValidationOutcome.ok tl) :
    lookup.code = 200 ∧ flash.code = 200 ∧
    (extractStringField "token_code" lookup.body).getD "" = opToken := by
  unfold validate_meeting_credentials at h
  by_cases h1 : lookup.code = 200
  · by_cases h2 : (extractStringField "token_code" lookup.body).getD "" = opToken
    · refine ⟨h1, ?_, h2⟩
      simp only [h1, ne_eq, not_true_eq_false, if_false, h2] at h
      cases hn : extractNatField "token_count" lookup.body with
      | none => rw [hn] at h; simp at h
      | some n =>
        rw [hn] at h
        by_cases h3 : n ≤ 0
        · simp [h3] at h
        · by_cases h4 : flash.code = 200
          · exact h4
          · simp [h3, h4] at h
    · simp [h1, h2] at h
  · simp [h1] at h

/-- Credentials committed by an install run were either supplied on the
command line with the meeting flow explicitly skipped, or passed the
full validation (both HTTP calls 200, stored token matching). -/
theorem installRun_write_origin (args : InstallArgs) (p : InstallPrompts)
    (lookup flash : HttpResponse) (cfg : MeetingConfig)
    (hw : (installRun args p lookup flash).write = some cfg)
    (hk : cfg.deviceKey ≠ "") :
    (args.skipMeeting = true ∧ cfg.deviceKey = args.deviceKey ∧
      cfg.tokenCode = args.tokenCode) ∨
    (lookup.code = 200 ∧ flash.code = 200 ∧
      (extractStringField "token_code" lookup.body).getD "" = cfg.tokenCode) := by
  unfold installRun installMeetingPhase at hw
  by_cases hskip : args.skipMeeting = true
  · rw [if_pos hskip] at hw
    dsimp only at hw
    by_cases hci : p.confirmInstall = false
    · simp [hci] at hw
    · rw [if_neg hci] at hw
      by_cases hpa : p.preWriteAbort = true
      · simp [hpa] at hw
      · rw [if_neg hpa] at hw
        simp only [Option.some.injEq] at hw
        exact Or.inl ⟨hskip, by rw [← hw], by rw [← hw]⟩
  · rw [if_neg hskip] at hw
    by_cases hcli : args.deviceKey ≠ "" ∧ args.tokenCode ≠ ""
    · rw [if_pos hcli] at hw
      dsimp only at hw
      cases hv : (validate_meeting_credentials lookup args.tokenCode flash).1 with
      | ok tl =>
        rw [hv] at hw
        dsimp only at hw
        by_cases hci : p.confirmInstall = false
        · simp [hci] at hw
        · rw [if_neg hci] at hw
          by_cases hpa : p.preWriteAbort = true
          · simp [hpa] at hw
          · rw [if_neg hpa] at hw
            simp only [Option.some.injEq] at hw
            have hfacts := validate_ok_facts lookup args.tokenCode flash tl hv
            exact Or.inr ⟨hfacts.1, hfacts.2.1, by rw [← hw]; exact hfacts.2.2⟩
      | deviceNotFound => rw [hv] at hw; simp at hw
      | invalidToken => rw [hv] at hw; simp at hw
      | noTokens => rw [hv] at hw; simp at hw
      | flashFailed => rw [hv] at hw; simp at hw
    · rw [if_neg hcli] at hw
      cases hint : p.meetingInteractive with
      | none =>
        rw [hint] at hw
        dsimp only at hw
        by_cases hci : p.confirmInstall = false
        · simp [hci] at hw
        · rw [if_neg hci] at hw
          by_cases hpa : p.preWriteAbort = true
          · simp [hpa] at hw
          · rw [if_neg hpa] at hw
            simp only [Option.some.injEq] at hw
            rw [← hw] at hk
            simp at hk
      | some kt =>
        obtain ⟨k, t⟩ := kt
        rw [hint] at hw
        dsimp only at hw
        cases hv : (validate_meeting_credentials lookup t flash).1 with
        | ok tl =>
          rw [hv] at hw
          dsimp only at hw
          by_cases hci : p.confirmInstall = false
          · simp [hci] at hw
          · rw [if_neg hci] at hw
            by_cases hpa : p.preWriteAbort = true
            · simp [hpa] at hw
            · rw [if_neg hpa] at hw
              simp only [Option.some.injEq] at hw
              have hfacts := validate_ok_facts lookup t flash tl hv
              exact Or.inr ⟨hfacts.1, hfacts.2.1, by rw [← hw]; exact hfacts.2.2⟩
        | deviceNotFound => rw [hv] at hw; simp at hw
        | invalidToken => rw [hv] at hw; simp at hw
        | noTokens => rw [hv] at hw; simp at hw
        | flashFailed => rw [hv] at hw; simp at hw

/-- C1 counterexample: a repair run in which the operator re-enters
credentials persists the device key and token code into the meeting
section after only the device-lookup GET returned 200 — no
flash-request POST is issued at all during the run, refuting the claim
that both calls must have returned 200 in the writing run. -/
theorem C1_counterexample :
    ("K", "T") ∈
      (repair
        { sampleEnv with
            meetingRepair := some ("K", "T")
            repairLookup := ⟨200, "\"token_code\": \"T\""⟩ }
        { sampleHost with
            meeting := ⟨MEETING_SERVER_URL, "", ""⟩ }).writes ∧
    (repair
        { sampleEnv with
            meetingRepair := some ("K", "T")
            repairLookup := ⟨200, "\"token_code\": \"T\""⟩ }
        { sampleHost with
            meeting := ⟨MEETING_SERVER_URL, "", ""⟩ }).host.meeting.deviceKey =
      "K" ∧
    NetCall.flashPost ∉
      (repair
        { sampleEnv with
            meetingRepair := some ("K", "T")
            repairLookup := ⟨200, "\"token_code\": \"T\""⟩ }
        { sampleHost with
            meeting := ⟨MEETING_SERVER_URL, "", ""⟩ }).calls := by
  refine ⟨?_, ?_, ?_⟩ <;> decide

/-- C1 (amended): credentials reach the persisted meeting section only
if, during that run, either the full validation succeeded (lookup GET
and flash POST both 200), or the lookup-only repair re-validation
succeeded (GET 200 with matching token, no flash call in the whole
run), or the operator explicitly skipped validation (the skip flag on
install, or a repair that recreates a missing config file from the
command-line variables). -/
theorem C1_amended_credential_write_gating :
    (∀ (args : InstallArgs) (p : InstallPrompts)
        (lookup flash : HttpResponse) (cfg : MeetingConfig),
      (installRun args p lookup flash).write = some cfg →
      cfg.deviceKey ≠ "" →
      (args.skipMeeting = true ∧ cfg.deviceKey = args.deviceKey ∧
        cfg.tokenCode = args.tokenCode) ∨
      (lookup.code = 200 ∧ flash.code = 200 ∧
        (extractStringField "token_code" lookup.body).getD "" =
          cfg.tokenCode)) ∧
    (∀ (e : Env) (h : Host) (kt : String × String),
      kt ∈ (repair e h).writes →
      kt = (e.cliDeviceKey, e.cliTokenCode) ∨
      (e.repairLookup.code = 200 ∧
        (extractStringField "token_code" e.repairLookup.body).getD "" = kt.2 ∧
        NetCall.flashPost ∉ (repair e h).calls)) := by
  constructor
  · exact installRun_write_origin
  · intro e h kt hmem
    rcases repair_writes_origin e h kt hmem with ho | ho
    · exact Or.inl ho
    · refine Or.inr ⟨ho.1, ho.2, ?_⟩
      rw [repair_calls]
      exact runChecks_no_flash e h

/-- Witness for C1 (amended): skip-flag install with command-line
credentials. -/
theorem C1_amended_credential_write_gating_witness :
    (installRun ⟨true, "K", "T"⟩ ⟨none, true, false⟩ ⟨0, ""⟩ ⟨0, ""⟩).write =
      some ⟨MEETING_SERVER_URL, "K", "T"⟩ ∧
    (MeetingConfig.mk MEETING_SERVER_URL "K" "T").deviceKey ≠ "" ∧
    (((true : Bool) = true ∧
        (MeetingConfig.mk MEETING_SERVER_URL "K" "T").deviceKey = "K" ∧
        (MeetingConfig.mk MEETING_SERVER_URL "K" "T").tokenCode = "T") ∨
      ((HttpResponse.mk 0 "").code = 200 ∧ (HttpResponse.mk 0 "").code = 200 ∧
        (extractStringField "token_code" "").getD "" =
          (MeetingConfig.mk MEETING_SERVER_URL "K" "T").tokenCode)) :=
  ⟨by decide, by decide,
    C1_amended_credential_write_gating.1 ⟨true, "K", "T"⟩ ⟨none, true, false⟩
      ⟨0, ""⟩ ⟨0, ""⟩ ⟨MEETING_SERVER_URL, "K", "T"⟩ (by decide) (by decide)⟩

/-- C6: when a repair check escalates to needs-reinstall and the
operator confirms, the repair action backs up the configuration
subtree, removes the installation root, performs a full install with
the activation flow skipped — issuing no flash POST, so no activation
token is consumed — and restores the backed-up configuration (the
persisted meeting section equal to the pre-reinstall one). -/
theorem C6_reinstall_preserves_config_no_token (e : Env) (h : Host)
    (hr : (runChecks e h).reinstall = true)
    (hc : e.confirmReinstall = true)
    (hcfg : (runChecks e h).host.configDir = true) :
    (repair e h).trace = [REvent.backupConfig, REvent.removeRoot,
      REvent.fullInstall, REvent.restoreConfig, REvent.permsAfterRestore] ∧
    NetCall.flashPost ∉ (repair e h).calls ∧
    (repair e h).host.meeting = (runChecks e h).host.meeting := by
  unfold repair
  simp only [hr, hc, hcfg, if_true]
  simp [set_permissions]
  exact runChecks_no_flash e h

/-- Witness for C6: a host whose installation root is missing but whose
config subtree exists. -/
theorem C6_reinstall_preserves_config_no_token_witness :
    (runChecks sampleEnv { sampleHost with installDir := false }).reinstall =
      true ∧
    sampleEnv.confirmReinstall = true ∧
    (runChecks sampleEnv
      { sampleHost with installDir := false }).host.configDir = true ∧
    (repair sampleEnv { sampleHost with installDir := false }).trace =
      [REvent.backupConfig, REvent.removeRoot, REvent.fullInstall,
       REvent.restoreConfig, REvent.permsAfterRestore] :=
  ⟨by decide, by decide, by decide,
    (C6_reinstall_preserves_config_no_token sampleEnv
      { sampleHost with installDir := false }
      (by decide) (by decide) (by decide)).1⟩

/- Host-level characterizations of the repair steps, used for the
idempotence analysis (C4). -/

theorem subdirEscalate_host (proj : Host → Bool) (s : RepairS) :
    (subdirEscalate proj s).host = s.host := by
  unfold subdirEscalate
  split <;> rfl

theorem mkdirConfigStep_host (s : RepairS) :
    (mkdirConfigStep s).host = { s.host with configDir := true } := by
  obtain ⟨h, f, x, r, c, w⟩ := s
  unfold mkdirConfigStep
  dsimp only
  split
  · rfl
  · rename_i hc
    cases h
    simp_all

theorem mkdirLogsStep_host (s : RepairS) :
    (mkdirLogsStep s).host =
      { s.host with
          logsDir := true
          logsWritable :=
            if s.host.logsDir = true then s.host.logsWritable else true
          logsOwnerOk :=
            if s.host.logsDir = true then s.host.logsOwnerOk else false } := by
  obtain ⟨h, f, x, r, c, w⟩ := s
  unfold mkdirLogsStep
  dsimp only
  split
  · rename_i hc
    cases h
    simp_all
  · rename_i hc
    cases h
    simp_all

theorem repairCheck1_host (s : RepairS) (hid : s.host.installDir = true) :
    (repairCheck1 s).host =
      { s.host with
          configDir := true
          logsDir := true
          logsWritable :=
            if s.host.logsDir = true then s.host.logsWritable else true
          logsOwnerOk :=
            if s.host.logsDir = true then s.host.logsOwnerOk else false } := by
  unfold repairCheck1
  rw [if_neg (by simp [hid])]
  rw [mkdirLogsStep_host, mkdirConfigStep_host, subdirEscalate_host,
    subdirEscalate_host, subdirEscalate_host]

theorem memFix_video_host (s : RepairS) :
    (memFix Host.hostVideo Host.memVideo
      (fun h => { h with memVideo := true }) s).host =
      { s.host with memVideo := s.host.hostVideo || s.host.memVideo } := by
  obtain ⟨h, f, x, r, c, w⟩ := s
  unfold memFix
  dsimp only
  split
  · rename_i hc
    obtain ⟨hg, hm⟩ := hc
    cases h
    simp_all
  · rename_i hc
    rw [not_and_or] at hc
    cases h
    rcases hc with hc | hc <;> simp_all

theorem memFix_audio_host (s : RepairS) :
    (memFix Host.hostAudio Host.memAudio
      (fun h => { h with memAudio := true }) s).host =
      { s.host with memAudio := s.host.hostAudio || s.host.memAudio } := by
  obtain ⟨h, f, x, r, c, w⟩ := s
  unfold memFix
  dsimp only
  split
  · rename_i hc
    obtain ⟨hg, hm⟩ := hc
    cases h
    simp_all
  · rename_i hc
    rw [not_and_or] at hc
    cases h
    rcases hc with hc | hc <;> simp_all

theorem memFix_gpio_host (s : RepairS) :
    (memFix Host.hostGpio Host.memGpio
      (fun h => { h with memGpio := true }) s).host =
      { s.host with memGpio := s.host.hostGpio || s.host.memGpio } := by
  obtain ⟨h, f, x, r, c, w⟩ := s
  unfold memFix
  dsimp only
  split
  · rename_i hc
    obtain ⟨hg, hm⟩ := hc
    cases h
    simp_all
  · rename_i hc
    rw [not_and_or] at hc
    cases h
    rcases hc with hc | hc <;> simp_all

theorem memFix_i2c_host (s : RepairS) :
    (memFix Host.hostI2c Host.memI2c
      (fun h => { h with memI2c := true }) s).host =
      { s.host with memI2c := s.host.hostI2c || s.host.memI2c } := by
  obtain ⟨h, f, x, r, c, w⟩ := s
  unfold memFix
  dsimp only
  split
  · rename_i hc
    obtain ⟨hg, hm⟩ := hc
    cases h
    simp_all
  · rename_i hc
    rw [not_and_or] at hc
    cases h
    rcases hc with hc | hc <;> simp_all

theorem memFix_spi_host (s : RepairS) :
    (memFix Host.hostSpi Host.memSpi
      (fun h => { h with memSpi := true }) s).host =
      { s.host with memSpi := s.host.hostSpi || s.host.memSpi } := by
  obtain ⟨h, f, x, r, c, w⟩ := s
  unfold memFix
  dsimp only
  split
  · rename_i hc
    obtain ⟨hg, hm⟩ := hc
    cases h
    simp_all
  · rename_i hc
    rw [not_and_or] at hc
    cases h
    rcases hc with hc | hc <;> simp_all

theorem repairCheck2_host (s : RepairS) :
    (repairCheck2 s).host =
      { s.host with
          userExists := true
          memVideo := s.host.hostVideo || s.host.memVideo
          memAudio := s.host.hostAudio || s.host.memAudio
          memGpio := s.host.hostGpio || s.host.memGpio
          memI2c := s.host.hostI2c || s.host.memI2c
          memSpi := s.host.hostSpi || s.host.memSpi } := by
  unfold repairCheck2
  split
  · rfl
  · rename_i hc
    rw [memFix_spi_host, memFix_i2c_host, memFix_gpio_host, memFix_audio_host,
      memFix_video_host]
    obtain ⟨h, f, x, r, c, w⟩ := s
    cases h
    simp_all

theorem repairCheck3_host (e : Env) (s : RepairS)
    (hb : s.host.backendDir = true) (hp : e.pipFixOk = true) :
    (repairCheck3 e s).host =
      { s.host with
          venvDir := true
          venvPython := true
          pipCheckOk :=
            if s.host.requirementsFile = true then true
            else s.host.pipCheckOk } := by
  obtain ⟨h, f, x, r, c, w⟩ := s
  unfold repairCheck3 setup_python_environment
  dsimp only
  repeat' split
  all_goals (cases h; simp_all [not_and_or])

theorem svcObsoleteFix_host (s : RepairS) :
    (svcObsoleteFix s).host =
      if s.host.svcKillMode = false ∨ s.host.svcTimeoutStop = false then
        { s.host with
            serviceFile := true
            svcKillMode := true
            svcTimeoutStop := true
            svcEnabled := true
            serviceActive := false }
      else s.host := by
  obtain ⟨h, f, x, r, c, w⟩ := s
  unfold svcObsoleteFix create_systemd_service
  dsimp only
  split <;> rfl

theorem svcEnableFix_host (s : RepairS) :
    (svcEnableFix s).host = { s.host with svcEnabled := true } := by
  obtain ⟨h, f, x, r, c, w⟩ := s
  unfold svcEnableFix
  dsimp only
  split
  · rfl
  · rename_i hc
    cases h
    simp_all

theorem repairCheck4_host (s : RepairS) (hb : s.host.backendDir = true) :
    (repairCheck4 s).host =
      { s.host with
          serviceFile := true
          svcKillMode := true
          svcTimeoutStop := true
          svcEnabled := true
          serviceActive :=
            if s.host.serviceFile = true ∧
                (s.host.svcKillMode = false ∨ s.host.svcTimeoutStop = false)
            then false else s.host.serviceActive } := by
  unfold repairCheck4
  by_cases hfile : s.host.serviceFile = false
  · rw [if_pos hfile, if_pos hb]
    unfold create_systemd_service
    obtain ⟨h, f, x, r, c, w⟩ := s
    cases h
    simp_all
  · rw [if_neg hfile]
    rw [svcEnableFix_host, svcObsoleteFix_host]
    by_cases hkm : s.host.svcKillMode = false ∨ s.host.svcTimeoutStop = false
    · rw [if_pos hkm]
      obtain ⟨h, f, x, r, c, w⟩ := s
      cases h
      simp_all
    · rw [if_neg hkm]
      rw [not_or] at hkm
      obtain ⟨h, f, x, r, c, w⟩ := s
      cases h
      simp_all

theorem repairCheck5_host (s : RepairS) (hid : s.host.installDir = true) :
    (repairCheck5 s).host =
      { s.host with
          ownerOk := true
          logsWritable :=
            if s.host.ownerOk = true then s.host.logsWritable else true
          logsOwnerOk :=
            if s.host.ownerOk = true then s.host.logsOwnerOk else true } := by
  unfold repairCheck5 set_permissions
  rw [if_pos hid]
  obtain ⟨h, f, x, r, c, w⟩ := s
  dsimp only
  split
  · rename_i hc
    cases h
    simp_all
  · rename_i hc
    cases h
    simp_all

theorem repairCheck6_host (e : Env) (s : RepairS)
    (h1 : e.mediamtxInstallOk = true) (h2 : e.mediamtxStartOk = true) :
    (repairCheck6 e s).host =
      { s.host with mediamtxInstalled := true, mediamtxActive := true } := by
  obtain ⟨h, f, x, r, c, w⟩ := s
  unfold repairCheck6 install_mediamtx
  dsimp only
  repeat' split
  all_goals (cases h; simp_all)

/-- The non-consuming meeting check touches only the meeting section. -/
theorem check_meeting_host_eq (e : Env) (h : Host) :
    ∃ m, (check_meeting_config_repair e h).1 = { h with meeting := m } := by
  unfold check_meeting_config_repair
  cases e.meetingRepair with
  | none => exact ⟨h.meeting, rfl⟩
  | some kt =>
    obtain ⟨k, t⟩ := kt
    dsimp only
    split
    · split
      · exact ⟨update_meeting_config h.meeting MEETING_SERVER_URL k t, rfl⟩
      · exact ⟨h.meeting, rfl⟩
    · exact ⟨h.meeting, rfl⟩

theorem repairCheck7_host (e : Env) (s : RepairS) :
    ∃ m, (repairCheck7 e s).host =
      if s.host.configFile = true then { s.host with meeting := m }
      else
        { s.host with
            configDir := true
            configFile := true
            ownerOk := true
            logsWritable := true
            logsOwnerOk := true
            meeting := m } := by
  unfold repairCheck7
  split
  · rename_i hc
    refine ⟨⟨MEETING_SERVER_URL, e.cliDeviceKey, e.cliTokenCode⟩, ?_⟩
    rw [if_neg (by simp [hc])]
    unfold set_permissions setup_configuration
    rw [if_neg (by simp [hc])]
  · rename_i hc
    obtain ⟨m, hm⟩ := check_meeting_host_eq e s.host
    refine ⟨m, ?_⟩
    rw [if_pos (by revert hc; cases s.host.configFile <;> simp)]
    dsimp only
    exact hm

theorem repairCheck8_host (s : RepairS) :
    (repairCheck8 s).host =
      if s.host.logsDir = true then
        { s.host with logsWritable := true, logsOwnerOk := true }
      else s.host := by
  obtain ⟨h, f, x, r, c, w⟩ := s
  unfold repairCheck8
  dsimp only
  repeat' split
  all_goals (cases h; simp_all [not_or])

/- Identity of each check on a healthy host, and reinstall-flag
preservation. -/

theorem subdirEscalate_id (proj : Host → Bool) (s : RepairS)
    (hp : proj s.host = true) : subdirEscalate proj s = s := by
  unfold subdirEscalate
  rw [if_neg (by simp [hp])]

theorem mkdirConfigStep_id (s : RepairS) (hc : s.host.configDir = true) :
    mkdirConfigStep s = s := by
  unfold mkdirConfigStep
  rw [if_neg (by simp [hc])]

theorem mkdirLogsStep_id (s : RepairS) (hl : s.host.logsDir = true) :
    mkdirLogsStep s = s := by
  unfold mkdirLogsStep
  rw [if_neg (by simp [hl])]

theorem repairCheck1_id (s : RepairS) (H : HealthyHost s.host) :
    repairCheck1 s = s := by
  unfold repairCheck1
  rw [if_neg (by simp [H.installDir]),
    subdirEscalate_id _ _ H.backendDir, subdirEscalate_id _ _ H.staticDir,
    subdirEscalate_id _ _ H.templatesDir, mkdirConfigStep_id _ H.configDir,
    mkdirLogsStep_id _ H.logsDir]

theorem memFix_id (hostG memG : Host → Bool) (setMem : Host → Host)
    (s : RepairS) (hp : hostG s.host = true → memG s.host = true) :
    memFix hostG memG setMem s = s := by
  unfold memFix
  rw [if_neg]
  rintro ⟨ha, hb⟩
  rw [hp ha] at hb
  exact absurd hb (by simp)

theorem repairCheck2_id (s : RepairS) (H : HealthyHost s.host) :
    repairCheck2 s = s := by
  unfold repairCheck2
  rw [if_neg (by simp [H.userExists]),
    memFix_id _ _ _ _ H.memVideo, memFix_id _ _ _ _ H.memAudio,
    memFix_id _ _ _ _ H.memGpio, memFix_id _ _ _ _ H.memI2c,
    memFix_id _ _ _ _ H.memSpi]

theorem repairCheck3_id (e : Env) (s : RepairS) (H : HealthyHost s.host) :
    repairCheck3 e s = s := by
  unfold repairCheck3
  rw [if_neg (by simp [H.venvDir]), if_neg (by simp [H.venvPython]), if_neg]
  rintro ⟨ha, hb⟩
  rw [H.pipCheckOk ha] at hb
  exact absurd hb (by simp)

theorem svcObsoleteFix_id (s : RepairS) (H : HealthyHost s.host) :
    svcObsoleteFix s = s := by
  unfold svcObsoleteFix
  rw [if_neg (by simp [H.svcKillMode, H.svcTimeoutStop])]

theorem svcEnableFix_id (s : RepairS) (H : HealthyHost s.host) :
    svcEnableFix s = s := by
  unfold svcEnableFix
  rw [if_neg (by simp [H.svcEnabled])]

theorem repairCheck4_id (s : RepairS) (H : HealthyHost s.host) :
    repairCheck4 s = s := by
  unfold repairCheck4
  rw [if_neg (by simp [H.serviceFile]), svcObsoleteFix_id s H,
    svcEnableFix_id s H]

theorem repairCheck5_id (s : RepairS) (H : HealthyHost s.host) :
    repairCheck5 s = s := by
  unfold repairCheck5
  rw [if_pos H.installDir, if_neg (by simp [H.ownerOk])]

theorem repairCheck6_id (e : Env) (s : RepairS) (H : HealthyHost s.host) :
    repairCheck6 e s = s := by
  unfold repairCheck6
  rw [if_neg (by simp [H.mediamtxInstalled]),
    if_neg (by simp [H.mediamtxActive])]

theorem repairCheck8_id (s : RepairS) (H : HealthyHost s.host) :
    repairCheck8 s = s := by
  unfold repairCheck8
  rw [if_pos H.logsDir,
    if_neg (by simp [H.logsWritable, H.logsOwnerOk])]

/-- When the config file exists, check 7 counts nothing. -/
theorem repairCheck7_counters (e : Env) (s : RepairS)
    (hc : s.host.configFile = true) :
    (repairCheck7 e s).found = s.found ∧ (repairCheck7 e s).fixed = s.fixed ∧
    (repairCheck7 e s).reinstall = s.reinstall := by
  unfold repairCheck7
  rw [if_neg (by simp [hc])]
  dsimp only
  exact ⟨rfl, rfl, rfl⟩

/-- Changing only the meeting section keeps a host healthy. -/
theorem healthy_meeting {h : Host} (H : HealthyHost h) (m : MeetingConfig) :
    HealthyHost { h with meeting := m } :=
  ⟨H.installDir, H.backendDir, H.staticDir, H.templatesDir, H.configDir,
   H.logsDir, H.userExists, H.memVideo, H.memAudio, H.memGpio, H.memI2c,
   H.memSpi, H.venvDir, H.venvPython, H.pipCheckOk, H.serviceFile,
   H.svcKillMode, H.svcTimeoutStop, H.svcEnabled, H.ownerOk,
   H.mediamtxInstalled, H.mediamtxActive, H.configFile, H.logsWritable,
   H.logsOwnerOk⟩

/-- Changing only the service-activity flag keeps a host healthy. -/
theorem healthy_serviceActive {h : Host} (H : HealthyHost h) (b : Bool) :
    HealthyHost { h with serviceActive := b } :=
  ⟨H.installDir, H.backendDir, H.staticDir, H.templatesDir, H.configDir,
   H.logsDir, H.userExists, H.memVideo, H.memAudio, H.memGpio, H.memI2c,
   H.memSpi, H.venvDir, H.venvPython, H.pipCheckOk, H.serviceFile,
   H.svcKillMode, H.svcTimeoutStop, H.svcEnabled, H.ownerOk,
   H.mediamtxInstalled, H.mediamtxActive, H.configFile, H.logsWritable,
   H.logsOwnerOk⟩

/-- On a healthy host the whole check battery finds nothing and never
escalates. -/
theorem runChecks_on_healthy (e : Env) (h : Host) (H : HealthyHost h) :
    (runChecks e h).found = 0 ∧ (runChecks e h).reinstall = false := by
  unfold runChecks
  rw [repairCheck1_id _ H, repairCheck2_id _ H, repairCheck3_id e _ H,
    repairCheck4_id _ H, repairCheck5_id _ H, repairCheck6_id e _ H]
  obtain ⟨m, hm⟩ := repairCheck7_host e ⟨h, 0, 0, false, [], []⟩
  rw [if_pos H.configFile] at hm
  have hf := repairCheck7_counters e ⟨h, 0, 0, false, [], []⟩ H.configFile
  have H7 : HealthyHost (repairCheck7 e ⟨h, 0, 0, false, [], []⟩).host := by
    rw [hm]
    exact healthy_meeting H m
  rw [repairCheck8_id _ H7]
  exact ⟨hf.1, hf.2.2⟩

/- Reinstall-flag preservation through the checks. -/

theorem mkdirConfigStep_reinstall (s : RepairS) :
    (mkdirConfigStep s).reinstall = s.reinstall := by
  unfold mkdirConfigStep
  split <;> rfl

theorem mkdirLogsStep_reinstall (s : RepairS) :
    (mkdirLogsStep s).reinstall = s.reinstall := by
  unfold mkdirLogsStep
  split <;> rfl

theorem repairCheck1_reinstall (s : RepairS) (hid : s.host.installDir = true)
    (h2 : s.host.backendDir = true) (h3 : s.host.staticDir = true)
    (h4 : s.host.templatesDir = true) :
    (repairCheck1 s).reinstall = s.reinstall := by
  unfold repairCheck1
  rw [if_neg (by simp [hid]), subdirEscalate_id _ _ h2,
    subdirEscalate_id _ _ h3, subdirEscalate_id _ _ h4,
    mkdirLogsStep_reinstall, mkdirConfigStep_reinstall]

theorem memFix_reinstall (hostG memG : Host → Bool) (setMem : Host → Host)
    (s : RepairS) : (memFix hostG memG setMem s).reinstall = s.reinstall := by
  unfold memFix
  split <;> rfl

theorem repairCheck2_reinstall (s : RepairS) :
    (repairCheck2 s).reinstall = s.reinstall := by
  unfold repairCheck2
  split
  · rfl
  · rw [memFix_reinstall, memFix_reinstall, memFix_reinstall,
      memFix_reinstall, memFix_reinstall]

theorem repairCheck3_reinstall (e : Env) (s : RepairS)
    (hb : s.host.backendDir = true) :
    (repairCheck3 e s).reinstall = s.reinstall := by
  unfold repairCheck3
  repeat' split
  all_goals first
    | rfl
    | simp_all

theorem svcObsoleteFix_reinstall (s : RepairS) :
    (svcObsoleteFix s).reinstall = s.reinstall := by
  unfold svcObsoleteFix
  split <;> rfl

theorem svcEnableFix_reinstall (s : RepairS) :
    (svcEnableFix s).reinstall = s.reinstall := by
  unfold svcEnableFix
  split <;> rfl

theorem repairCheck4_reinstall (s : RepairS)
    (hb : s.host.backendDir = true) :
    (repairCheck4 s).reinstall = s.reinstall := by
  unfold repairCheck4
  by_cases hfile : s.host.serviceFile = false
  · rw [if_pos hfile, if_pos hb]
  · rw [if_neg hfile, svcEnableFix_reinstall, svcObsoleteFix_reinstall]

theorem repairCheck5_reinstall (s : RepairS) :
    (repairCheck5 s).reinstall = s.reinstall := by
  unfold repairCheck5
  repeat' split
  all_goals rfl

theorem repairCheck6_reinstall (e : Env) (s : RepairS) :
    (repairCheck6 e s).reinstall = s.reinstall := by
  unfold repairCheck6
  repeat' split
  all_goals rfl

theorem repairCheck7_reinstall (e : Env) (s : RepairS) :
    (repairCheck7 e s).reinstall = s.reinstall := by
  unfold repairCheck7
  split
  · rfl
  · dsimp only

theorem repairCheck8_reinstall (s : RepairS) :
    (repairCheck8 s).reinstall = s.reinstall := by
  unfold repairCheck8
  repeat' split
  all_goals rfl

/-- After one run of the check battery with every external fix
succeeding, on a host whose root and code directories are present, the
host is healthy and no check escalated to reinstall. -/
theorem runChecks_spec (e : Env) (h : Host)
    (he1 : e.mediamtxInstallOk = true) (he2 : e.mediamtxStartOk = true)
    (he3 : e.pipFixOk = true)
    (r1 : h.installDir = true) (r2 : h.backendDir = true)
    (r3 : h.staticDir = true) (r4 : h.templatesDir = true) :
    HealthyHost (runChecks e h).host ∧ (runChecks e h).reinstall = false := by
  unfold runChecks
  have e1 := repairCheck1_host (⟨h, 0, 0, false, [], []⟩ : RepairS) r1
  dsimp only at e1
  have e2 := repairCheck2_host (repairCheck1 (⟨h, 0, 0, false, [], []⟩ : RepairS))
  rw [e1] at e2
  dsimp only at e2
  have hb3 : (repairCheck2 (repairCheck1 (⟨h, 0, 0, false, [], []⟩ : RepairS))).host.backendDir = true := by
    rw [e2]
    exact r2
  have e3 := repairCheck3_host e (repairCheck2 (repairCheck1 (⟨h, 0, 0, false, [], []⟩ : RepairS))) hb3 he3
  rw [e2] at e3
  dsimp only at e3
  have hb4 : (repairCheck3 e (repairCheck2 (repairCheck1 (⟨h, 0, 0, false, [], []⟩ : RepairS)))).host.backendDir = true := by
    rw [e3]
    exact r2
  have e4 := repairCheck4_host (repairCheck3 e (repairCheck2 (repairCheck1 (⟨h, 0, 0, false, [], []⟩ : RepairS)))) hb4
  rw [e3] at e4
  dsimp only at e4
  have hid5 : (repairCheck4 (repairCheck3 e (repairCheck2 (repairCheck1 (⟨h, 0, 0, false, [], []⟩ : RepairS))))).host.installDir = true := by
    rw [e4]
    exact r1
  have e5 := repairCheck5_host (repairCheck4 (repairCheck3 e (repairCheck2 (repairCheck1 (⟨h, 0, 0, false, [], []⟩ : RepairS))))) hid5
  rw [e4] at e5
  dsimp only at e5
  have e6 := repairCheck6_host e (repairCheck5 (repairCheck4 (repairCheck3 e (repairCheck2 (repairCheck1 (⟨h, 0, 0, false, [], []⟩ : RepairS)))))) he1 he2
  rw [e5] at e6
  dsimp only at e6
  obtain ⟨m, e7⟩ := repairCheck7_host e (repairCheck6 e (repairCheck5 (repairCheck4 (repairCheck3 e (repairCheck2 (repairCheck1 (⟨h, 0, 0, false, [], []⟩ : RepairS)))))))
  rw [e6] at e7
  dsimp only at e7
  constructor
  · by_cases hcf : h.configFile = true
    · rw [if_pos hcf] at e7
      have e8 := repairCheck8_host (repairCheck7 e (repairCheck6 e (repairCheck5 (repairCheck4 (repairCheck3 e (repairCheck2 (repairCheck1 (⟨h, 0, 0, false, [], []⟩ : RepairS))))))))
      rw [e7] at e8
      dsimp only at e8
      rw [if_pos rfl] at e8
      rw [e8]
      refine ⟨r1, r2, r3, r4, rfl, rfl, rfl, ?_, ?_, ?_, ?_, ?_, rfl, rfl,
        ?_, rfl, rfl, rfl, rfl, rfl, rfl, rfl, hcf, rfl, rfl⟩
      all_goals intro hg
      all_goals first
        | (rw [hg]; rfl)
        | (rw [if_pos hg])
    · rw [if_neg hcf] at e7
      have e8 := repairCheck8_host (repairCheck7 e (repairCheck6 e (repairCheck5 (repairCheck4 (repairCheck3 e (repairCheck2 (repairCheck1 (⟨h, 0, 0, false, [], []⟩ : RepairS))))))))
      rw [e7] at e8
      dsimp only at e8
      rw [if_pos rfl] at e8
      rw [e8]
      refine ⟨r1, r2, r3, r4, rfl, rfl, rfl, ?_, ?_, ?_, ?_, ?_, rfl, rfl,
        ?_, rfl, rfl, rfl, rfl, rfl, rfl, rfl, rfl, rfl, rfl⟩
      all_goals intro hg
      all_goals first
        | (rw [hg]; rfl)
        | (rw [if_pos hg])
  · rw [repairCheck8_reinstall, repairCheck7_reinstall,
      repairCheck6_reinstall, repairCheck5_reinstall,
      repairCheck4_reinstall (repairCheck3 e (repairCheck2 (repairCheck1 (⟨h, 0, 0, false, [], []⟩ : RepairS)))) hb4, repairCheck3_reinstall e (repairCheck2 (repairCheck1 (⟨h, 0, 0, false, [], []⟩ : RepairS))) hb3,
      repairCheck2_reinstall, repairCheck1_reinstall (⟨h, 0, 0, false, [], []⟩ : RepairS) r1 r2 r3 r4]


/-- C4 counterexample: on a host that is healthy except that MediaMTX
is missing, in an environment where the MediaMTX installation attempt
fails, the first repair run reports the issue without fixing it, and a
second run with no intervening host change again reports one issue —
not zero. -/
theorem C4_counterexample :
    (repair { sampleEnv with mediamtxInstallOk := false }
      (repair { sampleEnv with mediamtxInstallOk := false }
        { sampleHost with
            mediamtxInstalled := false
            mediamtxActive := false }).host).found = 1 ∧
    ¬ ((repair { sampleEnv with mediamtxInstallOk := false }
      (repair { sampleEnv with mediamtxInstallOk := false }
        { sampleHost with
            mediamtxInstalled := false
            mediamtxActive := false }).host).found = 0) := by
  refine ⟨?_, ?_⟩ <;> decide

/-- C4 (amended): when the installation root and the code
subdirectories are present (so no check escalates to reinstall) and
every external fix a repair run attempts succeeds (MediaMTX install
and start, Python dependency reinstallation), running repair twice in
a row with no intervening host change makes the second invocation
report zero issues found. -/
theorem C4_amended_repair_idempotent (e : Env) (h : Host)
    (he1 : e.mediamtxInstallOk = true) (he2 : e.mediamtxStartOk = true)
    (he3 : e.pipFixOk = true)
    (r1 : h.installDir = true) (r2 : h.backendDir = true)
    (r3 : h.staticDir = true) (r4 : h.templatesDir = true) :
    (repair e (repair e h).host).found = 0 := by
  obtain ⟨H1, hrein⟩ := runChecks_spec e h he1 he2 he3 r1 r2 r3 r4
  have hosts : (repair e h).host = (runChecks e h).host ∨
      (repair e h).host =
        { (runChecks e h).host with serviceActive := true } := by
    unfold repair
    dsimp only
    rw [hrein]
    repeat' split
    all_goals first
      | exact Or.inl rfl
      | exact Or.inr rfl
      | simp_all
  have H2 : HealthyHost (repair e h).host := by
    rcases hosts with hh | hh <;> rw [hh]
    · exact H1
    · exact healthy_serviceActive H1 true
  obtain ⟨hf0, hr0⟩ := runChecks_on_healthy e (repair e h).host H2
  generalize hX : (repair e h).host = X at hf0 hr0 ⊢
  unfold repair
  dsimp only
  rw [hr0, hf0]
  simp

/-- Witness for C4 (amended) on the sample host and environment. -/
theorem C4_amended_repair_idempotent_witness :
    sampleEnv.mediamtxInstallOk = true ∧ sampleHost.installDir = true ∧
    (repair sampleEnv (repair sampleEnv sampleHost).host).found = 0 :=
  ⟨rfl, rfl,
    C4_amended_repair_idempotent sampleEnv sampleHost rfl rfl rfl rfl rfl
      rfl rfl⟩

end Mme
